import Mathlib

/-!
# Verification of the AI-Marketing-Agent workflow core

A shallow embedding of the coordinator, session store and agent logic of
`server/marketing_agent` (files `core/coordinator.py`, `core/memory.py`,
`core/models.py`, `agents/brand_strategist.py`, `agents/creative_engine.py`,
`agents/campaign_manager.py`), together with theorems settling the spec's
claims about stage sequencing, retry, the feedback loop, the KPI predicate,
the session store and the brand-profile extraction.

Conventions of the embedding:
* Python `datetime.now()` is modelled by a logical clock `ℕ`, ticking once
  per call; timestamps stored in the session store are `time t` values.
* Python floats are modelled as `ℚ` (only order comparisons matter here).
* Exceptions are modelled by `Except String`; an uncaught exception is a
  `.error`/`raised` outcome.
* JSON-serializable Python data is modelled by `JValue`; a Pydantic model
  passed to the store is modelled by `PyVal.model d` carrying its
  `model_dump()` serialization `d`.
-/

/-- JSON-like structured value: the data persisted in session files
(`core/memory.py` stores JSON). -/
inductive JValue : Type
  | null : JValue
  | bool : Bool → JValue
  | num : ℚ → JValue
  | str : String → JValue
  | arr : List JValue → JValue
  | obj : List (String × JValue) → JValue
deriving Repr

/-- A value handed to `SharedMemory.save`: either plain JSON-representable
data, or a Pydantic model carrying its `model_dump()` serialization
(`memory.py` lines 90-94 reduce a model to a dict before storing). -/
inductive PyVal : Type
  | json : JValue → PyVal
  | model : JValue → PyVal
deriving Repr

/-- The plain-data (serialized) form a value takes once stored:
`model_dump()` for a Pydantic model, the value itself otherwise. -/
def PyVal.dump : PyVal → JValue
  | .json j => j
  | .model d => d

/-- Association-list update, Python-dict style: an existing key keeps its
position and gets the new value; a new key is appended at the end. -/
def alistUpdate {α : Type} : List (String × α) → String → α → List (String × α)
  | [], k, v => [(k, v)]
  | (k', v') :: rest, k, v =>
      if k' = k then (k, v) :: rest else (k', v') :: alistUpdate rest k v

/-- Association-list lookup (first match). -/
def alistLookup {α : Type} : List (String × α) → String → Option α
  | [], _ => none
  | (k', v') :: rest, k => if k' = k then some v' else alistLookup rest k

theorem alistLookup_update_self {α : Type} (l : List (String × α)) (k : String) (v : α) :
    alistLookup (alistUpdate l k v) k = some v := by
  induction l with
  | nil => simp [alistUpdate, alistLookup]
  | cons hd tl ih =>
      obtain ⟨k', v'⟩ := hd
      by_cases h : k' = k <;> simp [alistUpdate, alistLookup, h, ih]

theorem alistLookup_update_other {α : Type} (l : List (String × α)) (k k' : String) (v : α)
    (hne : k' ≠ k) : alistLookup (alistUpdate l k v) k' = alistLookup l k' := by
  induction l with
  | nil => simp [alistUpdate, alistLookup, Ne.symm hne]
  | cons hd tl ih =>
      obtain ⟨k₀, v₀⟩ := hd
      by_cases h : k₀ = k
      · subst h
        simp [alistUpdate, alistLookup, Ne.symm hne]
      · by_cases h' : k₀ = k' <;> simp [alistUpdate, alistLookup, h, h', hne, ih]

/-- The value embeddings `SharedMemory` needs: strings, `None`, empty
list/dict, and timestamps (`datetime.now().isoformat()` stamps). -/
class MemVal (V : Type) where
  str : String → V
  null : V
  emptyArr : V
  emptyObj : V
  time : ℕ → V

instance : MemVal JValue where
  str := .str
  null := .null
  emptyArr := .arr []
  emptyObj := .obj []
  time t := .num t

/-- `SharedMemory` (`core/memory.py`): an in-memory session mapping plus the
on-disk store of persisted sessions (one file per session id), generic in
the value type so the coordinator can store typed stage results. -/
structure SharedMemory (V : Type) where
  session_id : Option String := none
  memory : List (String × V) := []
  disk : List (String × List (String × V)) := []

/-- The fresh session dict built by `create_session` (`memory.py` 44-55). -/
def initSessionMemory {V : Type} [MemVal V] (sid : String) (t : ℕ) : List (String × V) :=
  [("session_id", MemVal.str sid),
   ("created_at", MemVal.time t),
   ("brand_profile", MemVal.null),
   ("brand_analysis", MemVal.null),
   ("content_assets", MemVal.null),
   ("campaign_plan", MemVal.null),
   ("campaign_results", MemVal.null),
   ("workflow_state", MemVal.str "pending"),
   ("messages", MemVal.emptyArr),
   ("metadata", MemVal.emptyObj)]

/-- `create_session` (`memory.py` 30-57): auto-generates a time-derived id
when none is supplied, resets the in-memory session and persists it. -/
def SharedMemory.create_session {V : Type} [MemVal V] (m : SharedMemory V)
    (sid? : Option String) (t : ℕ) : String × SharedMemory V :=
  let sid := sid?.getD ("session_" ++ toString t)
  let mem := initSessionMemory sid t
  (sid, { session_id := some sid, memory := mem, disk := alistUpdate m.disk sid mem })

/-- The mutation `save` performs when a session is open (`memory.py` 96-98):
overwrite the slot, stamp `updated_at`, persist the whole session.  The
coordinator only ever calls it with an open session (it opens one at entry),
so with no session it is a no-op here; the checked entry point is
`SharedMemory.save`. -/
def SharedMemory.saveActive {V : Type} [MemVal V] (m : SharedMemory V)
    (key : String) (value : V) (t : ℕ) : SharedMemory V :=
  match m.session_id with
  | none => m
  | some sid =>
      let mem := alistUpdate (alistUpdate m.memory key value) "updated_at" (MemVal.time t)
      { m with memory := mem, disk := alistUpdate m.disk sid mem }

/-- `save` (`memory.py` 79-98): raises `RuntimeError` when no session is
active, otherwise performs the slot overwrite / stamp / persist. -/
def SharedMemory.save {V : Type} [MemVal V] (m : SharedMemory V)
    (key : String) (value : V) (t : ℕ) : Except String (SharedMemory V) :=
  match m.session_id with
  | none => .error "No active session. Call create_session() first."
  | some _ => .ok (m.saveActive key value t)

/-- `save` specialised to `JValue` stores, applying the `model_dump`
reduction of `memory.py` 90-94 to the incoming value. -/
def SharedMemory.savePy (m : SharedMemory JValue) (key : String) (value : PyVal)
    (t : ℕ) : Except String (SharedMemory JValue) :=
  m.save key value.dump t

/-- `get` (`memory.py` 100-111): pure read, defaulting. -/
def SharedMemory.get {V : Type} (m : SharedMemory V) (key : String) (default : V) : V :=
  (alistLookup m.memory key).getD default

/-- `load_session` (`memory.py` 59-77): `False` and no change when the
session file does not exist, otherwise loads it and returns `True`. -/
def SharedMemory.load_session {V : Type} (m : SharedMemory V) (sid : String) :
    Bool × SharedMemory V :=
  match alistLookup m.disk sid with
  | none => (false, m)
  | some mem => (true, { m with memory := mem, session_id := some sid })

/-- `set_workflow_state` (`memory.py` 161-168) as the coordinator uses it
(session always open there). -/
def SharedMemory.setWorkflowStateActive {V : Type} [MemVal V] (m : SharedMemory V)
    (state : String) (t : ℕ) : SharedMemory V :=
  m.saveActive "workflow_state" (MemVal.str state) t

/-! ## Data model (`core/models.py`) -/

/-- `ToneOfVoice` (`models.py` 10-17). -/
inductive ToneOfVoice : Type
  | professional | friendly | innovative | authoritative | playful | empathetic
deriving DecidableEq, Repr

/-- `Platform` (`models.py` 20-27). -/
inductive Platform : Type
  | linkedin | google_ads | facebook | instagram | email | twitter
deriving DecidableEq, Repr

/-- `ContentType` (`models.py` 30-36). -/
inductive ContentType : Type
  | post | ad_copy | email_campaign | article | video_script
deriving DecidableEq, Repr

/-- The string value of each `Platform` member. -/
def Platform.val : Platform → String
  | .linkedin => "linkedin"
  | .google_ads => "google_ads"
  | .facebook => "facebook"
  | .instagram => "instagram"
  | .email => "email"
  | .twitter => "twitter"

/-- The `ToneOfVoice(t)` enum constructor by value: `some` member whose
value is `s`, `none` when `s` is unrecognized (Python raises `ValueError`). -/
def toneOfVoiceOfString : String → Option ToneOfVoice
  | "professional" => some .professional
  | "friendly" => some .friendly
  | "innovative" => some .innovative
  | "authoritative" => some .authoritative
  | "playful" => some .playful
  | "empathetic" => some .empathetic
  | _ => none

/-- `TargetAudience` (`models.py` 43-48); the two `Dict[str, Any]` fields
are JSON objects. -/
structure TargetAudience where
  demographics : List (String × JValue) := []
  psychographics : List (String × JValue) := []
  pain_points : List String := []
  goals : List String := []

/-- `BrandProfile` (`models.py` 51-61). -/
structure BrandProfile where
  brand_name : String
  industry : String
  website_url : Option String := none
  tone_of_voice : List ToneOfVoice := []
  value_proposition : String := ""
  key_messages : List String := []
  target_audience : TargetAudience := {}
  brand_keywords : List String := []
  competitors : List String := []

/-- `SWOTAnalysis` (`models.py` 64-69). -/
structure SWOTAnalysis where
  strengths : List String := []
  weaknesses : List String := []
  opportunities : List String := []
  threats : List String := []

/-- `PositioningStrategy` (`models.py` 72-77). -/
structure PositioningStrategy where
  key_messages : List String := []
  differentiation_points : List String := []
  recommended_channels : List Platform := []
  content_themes : List String := []

/-- `BrandAnalysisResult` (`models.py` 80-86). -/
structure BrandAnalysisResult where
  brand_profile : BrandProfile
  swot_analysis : SWOTAnalysis
  positioning_strategy : PositioningStrategy
  created_at : ℕ := 0
  analysis_id : String := ""

/-- `VisualAsset` (`models.py` 93-99). -/
structure VisualAsset where
  asset_id : String
  prompt : String
  generated_url : Option String := none
  local_path : Option String := none
  style : String := "professional"

/-- `ContentAsset` (`models.py` 102-115). -/
structure ContentAsset where
  content_id : String
  platform : Platform
  content_type : ContentType
  content : String
  headline : Option String := none
  subject_line : Option String := none
  cta : Option String := none
  hashtags : List String := []
  keywords : List String := []
  visual_prompt : Option String := none
  tone : ToneOfVoice := .professional
  estimated_engagement_score : Option ℚ := none

/-- `ContentGenerationResult` (`models.py` 127-132). -/
structure ContentGenerationResult where
  content_assets : List ContentAsset
  visual_assets : List VisualAsset
  generation_metadata : List (String × JValue) := []
  created_at : ℕ := 0

/-- `BudgetAllocation` (`models.py` 139-145). -/
structure BudgetAllocation where
  channel : Platform
  allocated_budget : ℚ
  estimated_reach : ℕ := 0
  estimated_cpm : ℚ := 0
  estimated_cpc : ℚ := 0

/-- `ChannelStrategy` (`models.py` 148-154). -/
structure ChannelStrategy where
  channel : Platform
  content_id : String
  target_audience : TargetAudience
  budget_allocation : BudgetAllocation
  schedule : Option (List (String × JValue)) := none

/-- `CampaignPlan` (`models.py` 168-178; `influencer_outreach` is never
populated by the execution path modelled here). -/
structure CampaignPlan where
  campaign_id : String
  campaign_name : String
  total_budget : ℚ
  budget_allocations : List BudgetAllocation
  channel_strategies : List ChannelStrategy
  start_date : Option ℕ := none
  end_date : Option ℕ := none
  target_kpis : List (String × ℚ) := []

/-- `PerformanceMetrics` (`models.py` 181-192). -/
structure PerformanceMetrics where
  impressions : ℕ := 0
  clicks : ℕ := 0
  ctr : ℚ := 0
  conversions : ℕ := 0
  conversion_rate : ℚ := 0
  total_cost : ℚ := 0
  revenue : ℚ := 0
  roi : ℚ := 0
  cost_per_acquisition : ℚ := 0
  engagement_score : ℚ := 0

/-- `OptimizationFeedback` (`models.py` 195-200). -/
structure OptimizationFeedback where
  insights : List String := []
  recommendations : List String := []
  suggested_budget_reallocation : Option (List (Platform × ℚ)) := none
  suggested_content_adjustments : List String := []

/-- `CampaignResult` (`models.py` 203-208). -/
structure CampaignResult where
  campaign_plan : CampaignPlan
  performance_metrics : PerformanceMetrics
  optimization_feedback : OptimizationFeedback
  executed_at : ℕ := 0

/-- `WorkflowState` (`models.py` 215-223). -/
inductive WorkflowState : Type
  | pending | analyzing_brand | generating_content | planning_campaign
  | executing_campaign | completed | failed
deriving DecidableEq, Repr

/-- The string value of each `WorkflowState` member. -/
def WorkflowState.val : WorkflowState → String
  | .pending => "pending"
  | .analyzing_brand => "analyzing_brand"
  | .generating_content => "generating_content"
  | .planning_campaign => "planning_campaign"
  | .executing_campaign => "executing_campaign"
  | .completed => "completed"
  | .failed => "failed"

/-- `WorkflowInput` (`models.py` 226-233); `target_kpis` is a mapping from
KPI name to numeric target. -/
structure WorkflowInput where
  website_url : Option String := none
  brand_materials : List String := []
  campaign_brief : String
  budget : ℚ
  target_platforms : List Platform
  target_kpis : List (String × ℚ) := []

/-- `WorkflowResult` (`models.py` 236-245). -/
structure WorkflowResult where
  workflow_id : String
  state : WorkflowState
  brand_analysis : Option BrandAnalysisResult := none
  content_generation : Option ContentGenerationResult := none
  campaign_result : Option CampaignResult := none
  error_message : Option String := none
  started_at : ℕ
  completed_at : Option ℕ := none

/-! ## KPI-satisfaction predicate (`coordinator.py` 306-331) -/

/-- `AgentCoordinator._should_optimize`: `True` when any recognized target
KPI (`roi`, `conversions`, `ctr`) has an actual value strictly below its
target; an empty target mapping short-circuits to `False`. -/
def shouldOptimize (target_kpis : List (String × ℚ)) (performance : PerformanceMetrics) : Bool :=
  if target_kpis.isEmpty then false
  else target_kpis.any fun p =>
    (p.1 == "roi" && decide (performance.roi < p.2))
    || (p.1 == "conversions" && decide ((performance.conversions : ℚ) < p.2))
    || (p.1 == "ctr" && decide (performance.ctr < p.2))

/-! ## Retry wrapper (`coordinator.py` 277-304) -/

/-- Observable outcome of `_execute_with_retry`: the returned value or the
raised error (`none` only when the loop body never ran, i.e.
`max_retries = 0`, where Python would raise the unbound `None`), the number
of times the wrapped operation was invoked, and the list of backoff waits
performed (in order). -/
structure RetryOutcome (E A : Type) where
  result : Except (Option E) A
  invocations : ℕ
  waits : List ℕ
deriving Repr

/-- The retry loop of `_execute_with_retry`.  `op i` is the outcome of the
operation's `i`-th invocation; `rem` is the number of loop iterations left
(`max_retries - attempt`), `attempt` the current 0-based attempt index, and
`last` the last captured failure.  A backoff wait of `2 ^ attempt` happens
after a failed attempt only when another iteration remains
(`attempt < max_retries - 1`, i.e. `0 < rem` for the tail). -/
def retryGo {E A : Type} (op : ℕ → Except E A) :
    ℕ → ℕ → Option E → RetryOutcome E A
  | 0, attempt, last => ⟨.error last, attempt, []⟩
  | rem + 1, attempt, last =>
    match op attempt with
    | .ok a => ⟨.ok a, attempt + 1, []⟩
    | .error e =>
        let rest := retryGo op rem (attempt + 1) (some e)
        ⟨rest.result, rest.invocations,
          (if 0 < rem then [2 ^ attempt] else []) ++ rest.waits⟩

/-- `AgentCoordinator._execute_with_retry` (`coordinator.py` 277-304),
observed through the outcomes `op` of the successive invocations of the
wrapped operation. -/
def executeWithRetry {E A : Type} (op : ℕ → Except E A) (max_retries : ℕ) :
    RetryOutcome E A :=
  retryGo op max_retries 0 none

theorem retryGo_succeeds {E A : Type} (op : ℕ → Except E A) (k : ℕ) (v : A)
    (hok : op k = .ok v) :
    ∀ rem a last, a ≤ k → k < a + rem →
      (∀ i, a ≤ i → i < k → ∃ e, op i = .error e) →
      retryGo op rem a last =
        ⟨.ok v, k + 1, (List.range' a (k - a)).map fun i => 2 ^ i⟩ := by
  intro rem
  induction rem with
  | zero => intro a last hak hlt _; omega
  | succ rem ih =>
      intro a last hak hlt hfail
      rcases Nat.eq_or_lt_of_le hak with heq | hlt'
      · subst heq
        simp [retryGo, hok, Nat.sub_self]
      · obtain ⟨e, he⟩ := hfail a le_rfl hlt'
        have h1 : a + 1 ≤ k := hlt'
        have h2 : k < (a + 1) + rem := by omega
        have h3 : ∀ i, a + 1 ≤ i → i < k → ∃ e, op i = .error e := by
          intro i hi hik; exact hfail i (by omega) hik
        have hrem : 0 < rem := by omega
        have hr := ih (a + 1) (some e) h1 h2 h3
        have hka : k - a = (k - (a + 1)) + 1 := by omega
        simp only [retryGo, he, hr, hrem, if_pos, hka, List.range'_succ,
          List.map_cons, List.singleton_append]

theorem retryGo_allfail {E A : Type} (op : ℕ → Except E A) (m : ℕ) (err : ℕ → E)
    (hfail : ∀ i, i < m → op i = .error (err i)) :
    ∀ rem a last, a + rem = m → 0 < rem →
      retryGo op rem a last =
        ⟨.error (some (err (m - 1))), m, (List.range' a (m - 1 - a)).map fun i => 2 ^ i⟩ := by
  intro rem
  induction rem with
  | zero => intro a last _ h; omega
  | succ rem ih =>
      intro a last ham _
      have hfa : op a = .error (err a) := hfail a (by omega)
      rcases Nat.eq_zero_or_pos rem with hr0 | hrpos
      · subst hr0
        have ha : a = m - 1 := by omega
        subst ha
        simp [retryGo, hfa]
        omega
      · have hr := ih (a + 1) (some (err a)) (by omega) hrpos
        have hka : m - 1 - a = (m - 1 - (a + 1)) + 1 := by omega
        simp only [retryGo, hfa, hr, hrpos, if_pos, hka, List.range'_succ,
          List.map_cons, List.singleton_append]

/-- A concrete operation for exercising the retry wrapper: fails twice,
then succeeds with 42. -/
def retryDemoOp : ℕ → Except String ℕ :=
  fun i => if i < 2 then .error ("fail" ++ toString i) else .ok 42

/-- C2: for an operation failing `k < max_retries` times then succeeding,
`_execute_with_retry` returns the success value after exactly `k + 1`
invocations, having waited `2 ^ attempt` before each retry (attempt counted
from 0); for an operation failing on every attempt, it invokes it exactly
`max_retries` times and raises the failure captured on the last attempt. -/
theorem C2_execute_with_retry {E A : Type} (op : ℕ → Except E A)
    (max_retries k : ℕ) (v : A) (err : ℕ → E) :
    (1 ≤ max_retries → k < max_retries →
      (∀ i, i < k → ∃ e, op i = .error e) → op k = .ok v →
      executeWithRetry op max_retries =
        ⟨.ok v, k + 1, (List.range k).map fun i => 2 ^ i⟩) ∧
    (1 ≤ max_retries → (∀ i, i < max_retries → op i = .error (err i)) →
      executeWithRetry op max_retries =
        ⟨.error (some (err (max_retries - 1))), max_retries,
          (List.range (max_retries - 1)).map fun i => 2 ^ i⟩) := by
  constructor
  · intro _ hk hfail hok
    have h := retryGo_succeeds op k v hok max_retries 0 none (Nat.zero_le k)
      (by omega) (fun i _ hik => hfail i hik)
    simpa [executeWithRetry, List.range_eq_range'] using h
  · intro h1 hfail
    have h := retryGo_allfail op max_retries err hfail max_retries 0 none
      (by omega) (by omega)
    simpa [executeWithRetry, List.range_eq_range'] using h

/-- Witness for C2 at a concrete input: an operation failing twice then
succeeding, run with `max_retries = 3`. -/
theorem C2_execute_with_retry_witness :
    executeWithRetry retryDemoOp 3 =
      ⟨.ok 42, 2 + 1, (List.range 2).map fun i => 2 ^ i⟩ :=
  (C2_execute_with_retry retryDemoOp 3 2 42 (fun _ => "")).1
    (by omega) (by omega)
    (by intro i hi; interval_cases i <;> exact ⟨_, rfl⟩) rfl

theorem shouldOptimize_eq_any (target_kpis : List (String × ℚ)) (performance : PerformanceMetrics) :
    shouldOptimize target_kpis performance =
      target_kpis.any fun p =>
        (p.1 == "roi" && decide (performance.roi < p.2))
        || (p.1 == "conversions" && decide ((performance.conversions : ℚ) < p.2))
        || (p.1 == "ctr" && decide (performance.ctr < p.2)) := by
  cases target_kpis <;> simp [shouldOptimize]

/-- C3: `_should_optimize` reports "needs optimization" iff some recognized
KPI (`roi`, `conversions`, `ctr`) has an actual value strictly below its
target; unrecognized names are ignored; an empty mapping yields `false`. -/
theorem C3_should_optimize (target_kpis : List (String × ℚ)) (performance : PerformanceMetrics) :
    (shouldOptimize target_kpis performance = true ↔
      ∃ p ∈ target_kpis,
        (p.1 = "roi" ∧ performance.roi < p.2) ∨
        (p.1 = "conversions" ∧ (performance.conversions : ℚ) < p.2) ∨
        (p.1 = "ctr" ∧ performance.ctr < p.2)) ∧
    shouldOptimize [] performance = false := by
  refine ⟨?_, rfl⟩
  rw [shouldOptimize_eq_any, List.any_eq_true]
  constructor
  · rintro ⟨p, hp, hc⟩
    refine ⟨p, hp, ?_⟩
    simp only [Bool.or_eq_true, Bool.and_eq_true, beq_iff_eq, decide_eq_true_eq] at hc
    tauto
  · rintro ⟨p, hp, hc⟩
    refine ⟨p, hp, ?_⟩
    simp only [Bool.or_eq_true, Bool.and_eq_true, beq_iff_eq, decide_eq_true_eq]
    tauto

/-! ## Workflow orchestrator (`coordinator.py` 63-178)

The coordinator's three stage calls and the feedback loop's sub-calls go to
the external LLM boundary; their outcomes are supplied as a `StagePlan`.
`stage1`-`stage3` are the outcomes of the three *retry-wrapped* top-level
stage invocations (retry behaviour itself is verified separately above);
`iterGen i` / `iterExec i` are the outcomes of feedback iteration `i`'s
un-wrapped `generate_content` / `execute_campaign` calls.  A successful
agent call persists its result into the session store before returning
(`brand_strategist.py` 82, `creative_engine.py` 145, `campaign_manager.py`
138); a failed call persists nothing (each agent saves only as its last
step).  `refine_strategy` (`brand_strategist.py` 308-326) is a pass-through
returning its input unchanged and persisting nothing. -/

/-- Values the coordinator's workflow stores in the session store. -/
inductive WVal : Type
  | str : String → WVal
  | null
  | arr0
  | obj0
  | time : ℕ → WVal
  | brand : BrandAnalysisResult → WVal
  | content : ContentGenerationResult → WVal
  | campaign : CampaignResult → WVal

instance : MemVal WVal where
  str := .str
  null := .null
  emptyArr := .arr0
  emptyObj := .obj0
  time := .time

/-- Observable events of one workflow execution, in order: a state
transition (assignment mirrored into the session store), a retry-wrapped
top-level stage invocation, or a feedback-iteration sub-call. -/
inductive WEvent : Type
  | state : WorkflowState → WEvent
  | stage : ℕ → WEvent
  | refine : ℕ → WEvent
  | regen : ℕ → WEvent
  | reexec : ℕ → WEvent
deriving DecidableEq, Repr

/-- Outcomes of the external calls a workflow execution makes. -/
structure StagePlan where
  stage1 : Except String BrandAnalysisResult
  stage2 : Except String ContentGenerationResult
  stage3 : Except String CampaignResult
  iterGen : ℕ → Except String ContentGenerationResult
  iterExec : ℕ → Except String CampaignResult

/-- `AgentCoordinator` configuration (`coordinator.py` 33-50). -/
structure CoordinatorConfig where
  enable_feedback_loop : Bool := true
  max_iterations : ℕ := 2

/-- Everything observable after `execute_workflow` returns or raises. -/
structure WorkflowRun where
  result : WorkflowResult
  raised : Option String
  memory : SharedMemory WVal
  trace : List WEvent
  clock : ℕ

/-- Outcome of the feedback loop (`coordinator.py` 125-157): normal
completion of the `for` (by exhaustion or `break`), or an uncaught
exception from an iteration sub-call.  The trace lists only the loop's own
events. -/
inductive LoopOut : Type
  | done : WorkflowResult → SharedMemory WVal → ℕ → List WEvent → LoopOut
  | raised : String → WorkflowResult → SharedMemory WVal → ℕ → List WEvent → LoopOut

/-- Prepend events to a loop outcome's trace. -/
def LoopOut.consTrace : LoopOut → List WEvent → LoopOut
  | .done res m t tr, pre => .done res m t (pre ++ tr)
  | .raised e res m t tr, pre => .raised e res m t (pre ++ tr)

/-- The feedback loop body (`coordinator.py` 125-157).  `origBrand` is the
stage-1 result: the loop's `refine_strategy` call passes the stage-1 local
`brand_analysis` every iteration and returns it unchanged.  Iteration `i`:
refine (pure pass-through), regenerate content (persisting on success),
re-execute campaign (persisting on success), overwrite the in-memory
results, and `break` the first time the KPI predicate is satisfied. -/
def feedbackLoop (plan : StagePlan) (input : WorkflowInput)
    (origBrand : BrandAnalysisResult) :
    ℕ → ℕ → WorkflowResult → SharedMemory WVal → ℕ → LoopOut
  | 0, _, res, m, t => .done res m t []
  | rem + 1, i, res, m, t =>
    match plan.iterGen i with
    | .error e => .raised e res m t [.refine i, .regen i]
    | .ok c =>
      let m1 := m.saveActive "content_generation" (WVal.content c) t
      match plan.iterExec i with
      | .error e => .raised e res m1 (t + 1) [.refine i, .regen i, .reexec i]
      | .ok k =>
        let m2 := m1.saveActive "campaign_result" (WVal.campaign k) (t + 1)
        let res' := { res with brand_analysis := some origBrand,
                               content_generation := some c,
                               campaign_result := some k }
        if shouldOptimize input.target_kpis k.performance_metrics then
          (feedbackLoop plan input origBrand rem (i + 1) res' m2 (t + 2)).consTrace
            [.refine i, .regen i, .reexec i]
        else .done res' m2 (t + 2) [.refine i, .regen i, .reexec i]

/-- The `except` branch of `execute_workflow` (`coordinator.py` 169-176):
state to `FAILED`, record the message, stamp completion, mirror the state,
re-raise. -/
def failWith (res : WorkflowResult) (m : SharedMemory WVal) (t : ℕ)
    (tr : List WEvent) (e : String) : WorkflowRun :=
  let res' := { res with state := .failed, error_message := some e,
                         completed_at := some t }
  let m' := m.setWorkflowStateActive WorkflowState.failed.val (t + 1)
  { result := res', raised := some e, memory := m',
    trace := tr ++ [.state .failed], clock := t + 2 }

/-- Normal completion of `execute_workflow` (`coordinator.py` 159-162):
state to `COMPLETED`, stamp completion, mirror the state. -/
def completeRun (res : WorkflowResult) (m : SharedMemory WVal) (t : ℕ)
    (tr : List WEvent) : WorkflowRun :=
  let res' := { res with state := .completed, completed_at := some t }
  let m' := m.setWorkflowStateActive WorkflowState.completed.val (t + 1)
  { result := res', raised := none, memory := m',
    trace := tr ++ [.state .completed], clock := t + 2 }

/-- `AgentCoordinator.execute_workflow` (`coordinator.py` 63-178): create a
session, then per stage set the state, mirror it into the store, invoke the
retry-wrapped stage; on success of stage 3 evaluate the KPI predicate and
possibly run the feedback loop; complete or fail as the `try/except`
dictates. -/
def executeWorkflow (cfg : CoordinatorConfig) (plan : StagePlan)
    (input : WorkflowInput) (wid : String) (m0 : SharedMemory WVal)
    (t0 : ℕ) : WorkflowRun :=
  let m := (m0.create_session none t0).2
  let started := t0 + 1
  let res : WorkflowResult := { workflow_id := wid, state := .pending,
                                started_at := started }
  let tr : List WEvent := [.state .pending]
  -- Stage 1: brand analysis
  let res := { res with state := .analyzing_brand }
  let m := m.setWorkflowStateActive WorkflowState.analyzing_brand.val (started + 1)
  let t := started + 2
  let tr := tr ++ [.state .analyzing_brand, .stage 1]
  match plan.stage1 with
  | .error e => failWith res m t tr e
  | .ok brand =>
    let m := m.saveActive "brand_analysis" (WVal.brand brand) t
    let res := { res with brand_analysis := some brand }
    -- Stage 2: content generation
    let res := { res with state := .generating_content }
    let m := m.setWorkflowStateActive WorkflowState.generating_content.val (t + 1)
    let t := t + 2
    let tr := tr ++ [.state .generating_content, .stage 2]
    match plan.stage2 with
    | .error e => failWith res m t tr e
    | .ok content =>
      let m := m.saveActive "content_generation" (WVal.content content) t
      let res := { res with content_generation := some content }
      -- Stage 3: campaign execution
      let res := { res with state := .executing_campaign }
      let m := m.setWorkflowStateActive WorkflowState.executing_campaign.val (t + 1)
      let t := t + 2
      let tr := tr ++ [.state .executing_campaign, .stage 3]
      match plan.stage3 with
      | .error e => failWith res m t tr e
      | .ok campaign =>
        let m := m.saveActive "campaign_result" (WVal.campaign campaign) t
        let res := { res with campaign_result := some campaign }
        let t := t + 1
        if cfg.enable_feedback_loop
            && shouldOptimize input.target_kpis campaign.performance_metrics then
          match feedbackLoop plan input brand (cfg.max_iterations - 1) 0 res m t with
          | .done res' m' t' trL => completeRun res' m' t' (tr ++ trL)
          | .raised e res' m' t' trL => failWith res' m' t' (tr ++ trL) e
        else
          completeRun res m t tr

/-! ## Supporting lemmas about the store and the feedback loop -/

def LoopOut.result : LoopOut → WorkflowResult
  | .done res _ _ _ => res
  | .raised _ res _ _ _ => res

def LoopOut.clock : LoopOut → ℕ
  | .done _ _ t _ => t
  | .raised _ _ _ t _ => t

def LoopOut.trace : LoopOut → List WEvent
  | .done _ _ _ tr => tr
  | .raised _ _ _ _ tr => tr

theorem consTrace_result (o : LoopOut) (pre : List WEvent) :
    (o.consTrace pre).result = o.result := by
  cases o <;> rfl

theorem consTrace_clock (o : LoopOut) (pre : List WEvent) :
    (o.consTrace pre).clock = o.clock := by
  cases o <;> rfl

theorem consTrace_trace (o : LoopOut) (pre : List WEvent) :
    (o.consTrace pre).trace = pre ++ o.trace := by
  cases o <;> rfl

theorem saveActive_session_id {V : Type} [MemVal V] (m : SharedMemory V)
    (k : String) (v : V) (t : ℕ) :
    (m.saveActive k v t).session_id = m.session_id := by
  unfold SharedMemory.saveActive
  cases hm : m.session_id <;> simp [hm]

theorem saveActive_get_self {V : Type} [MemVal V] (m : SharedMemory V)
    (sid : String) (k : String) (v : V) (t : ℕ) (d : V)
    (hm : m.session_id = some sid) (hk : k ≠ "updated_at") :
    (m.saveActive k v t).get k d = v := by
  unfold SharedMemory.saveActive SharedMemory.get
  rw [hm]
  simp [alistLookup_update_other _ _ _ _ hk, alistLookup_update_self]

theorem saveActive_get_other {V : Type} [MemVal V] (m : SharedMemory V)
    (k k' : String) (v : V) (t : ℕ) (d : V)
    (hk : k' ≠ k) (hk' : k' ≠ "updated_at") :
    (m.saveActive k v t).get k' d = m.get k' d := by
  unfold SharedMemory.saveActive SharedMemory.get
  cases hm : m.session_id with
  | none => rfl
  | some sid =>
      simp [alistLookup_update_other _ _ _ _ hk',
        alistLookup_update_other _ _ _ _ hk]

/-- All three stage-result fields are present. -/
def WorkflowResult.populated (res : WorkflowResult) : Prop :=
  res.brand_analysis.isSome ∧ res.content_generation.isSome ∧
    res.campaign_result.isSome

theorem feedbackLoop_clock_le (plan : StagePlan) (input : WorkflowInput)
    (ob : BrandAnalysisResult) :
    ∀ rem i res m t, t ≤ (feedbackLoop plan input ob rem i res m t).clock := by
  intro rem
  induction rem with
  | zero => intro i res m t; exact le_rfl
  | succ rem ih =>
      intro i res m t
      unfold feedbackLoop
      cases plan.iterGen i with
      | error e => exact le_rfl
      | ok c =>
          cases plan.iterExec i with
          | error e => simp [LoopOut.clock]
          | ok k =>
              by_cases ho : shouldOptimize input.target_kpis k.performance_metrics
              · simp only [ho, if_true, consTrace_clock]
                calc t ≤ t + 2 := by omega
                  _ ≤ _ := ih (i + 1) _ _ (t + 2)
              · simp [ho, LoopOut.clock]

theorem feedbackLoop_populated (plan : StagePlan) (input : WorkflowInput)
    (ob : BrandAnalysisResult) :
    ∀ rem i res m t, res.populated →
      (feedbackLoop plan input ob rem i res m t).result.populated := by
  intro rem
  induction rem with
  | zero => intro i res m t h; exact h
  | succ rem ih =>
      intro i res m t h
      unfold feedbackLoop
      cases plan.iterGen i with
      | error e => exact h
      | ok c =>
          cases plan.iterExec i with
          | error e => exact h
          | ok k =>
              by_cases ho : shouldOptimize input.target_kpis k.performance_metrics
              · simp only [ho, if_true, consTrace_result]
                exact ih (i + 1) _ _ (t + 2) (by constructor <;> simp [WorkflowResult.populated])
              · simp [ho, LoopOut.result, WorkflowResult.populated]

theorem feedbackLoop_started_at (plan : StagePlan) (input : WorkflowInput)
    (ob : BrandAnalysisResult) :
    ∀ rem i res m t,
      (feedbackLoop plan input ob rem i res m t).result.started_at = res.started_at := by
  intro rem
  induction rem with
  | zero => intro i res m t; rfl
  | succ rem ih =>
      intro i res m t
      unfold feedbackLoop
      cases plan.iterGen i with
      | error e => rfl
      | ok c =>
          cases plan.iterExec i with
          | error e => rfl
          | ok k =>
              by_cases ho : shouldOptimize input.target_kpis k.performance_metrics
              · simp only [ho, if_true, consTrace_result]
                exact ih (i + 1) _ _ (t + 2)
              · simp [ho, LoopOut.result]

/-- Master case analysis of one workflow execution: it either returns with
state `COMPLETED`, all three stage results populated and a completion
timestamp after the start, or re-raises an exception with state `FAILED`,
the message recorded and a completion timestamp after the start. -/
theorem executeWorkflow_cases (cfg : CoordinatorConfig) (plan : StagePlan)
    (input : WorkflowInput) (wid : String) (m0 : SharedMemory WVal) (t0 : ℕ) :
    (let run := executeWorkflow cfg plan input wid m0 t0
     (run.raised = none ∧ run.result.state = .completed ∧ run.result.populated ∧
       ∃ tc, run.result.completed_at = some tc ∧ run.result.started_at < tc) ∨
     (∃ e, run.raised = some e ∧ run.result.state = .failed ∧
       run.result.error_message = some e ∧
       ∃ tc, run.result.completed_at = some tc ∧ run.result.started_at < tc)) := by
  obtain ⟨s1, s2, s3, ig, ie⟩ := plan
  cases s1 with
  | error e => exact .inr ⟨e, rfl, rfl, rfl, t0 + 3, rfl, by show t0 + 1 < t0 + 3; omega⟩
  | ok b =>
  cases s2 with
  | error e => exact .inr ⟨e, rfl, rfl, rfl, t0 + 5, rfl, by show t0 + 1 < t0 + 5; omega⟩
  | ok c =>
  cases s3 with
  | error e => exact .inr ⟨e, rfl, rfl, rfl, t0 + 7, rfl, by show t0 + 1 < t0 + 7; omega⟩
  | ok k =>
      simp only [executeWorkflow]
      split
      · split
        next res' m' t' trL heq =>
          left
          have h2 := congrArg LoopOut.clock heq
          have h4 := congrArg LoopOut.result heq
          rw [show LoopOut.clock (LoopOut.done res' m' t' trL) = t' from rfl] at h2
          rw [show LoopOut.result (LoopOut.done res' m' t' trL) = res' from rfl] at h4
          have h1 : t0 + 8 ≤ t' := by
            rw [← h2]
            exact feedbackLoop_clock_le _ _ _ _ _ _ _ _
          have hp : res'.populated := by
            rw [← h4]
            exact feedbackLoop_populated _ _ _ _ _ _ _ _ ⟨rfl, rfl, rfl⟩
          have hs : res'.started_at = t0 + 1 := by
            rw [← h4, feedbackLoop_started_at]
          refine ⟨rfl, rfl, hp, t', rfl, ?_⟩
          show res'.started_at < t'
          omega
        next e res' m' t' trL heq =>
          right
          have h2 := congrArg LoopOut.clock heq
          have h4 := congrArg LoopOut.result heq
          rw [show LoopOut.clock (LoopOut.raised e res' m' t' trL) = t' from rfl] at h2
          rw [show LoopOut.result (LoopOut.raised e res' m' t' trL) = res' from rfl] at h4
          have h1 : t0 + 8 ≤ t' := by
            rw [← h2]
            exact feedbackLoop_clock_le _ _ _ _ _ _ _ _
          have hs : res'.started_at = t0 + 1 := by
            rw [← h4, feedbackLoop_started_at]
          refine ⟨e, rfl, rfl, rfl, t', rfl, ?_⟩
          show res'.started_at < t'
          omega
      · exact .inl ⟨rfl, rfl, ⟨rfl, rfl, rfl⟩, t0 + 8, rfl, by show t0 + 1 < t0 + 8; omega⟩

/-! ## Claims C4 and C5: state machine order and result invariant -/

/-- C5: after `execute_workflow` finishes or raises, `COMPLETED` implies all
three stage-result fields are populated, and `FAILED` implies the error
message is populated and the timestamps bracket the failed attempt. -/
theorem C5_workflow_result_invariant (cfg : CoordinatorConfig) (plan : StagePlan)
    (input : WorkflowInput) (wid : String) (m0 : SharedMemory WVal) (t0 : ℕ) :
    (let run := executeWorkflow cfg plan input wid m0 t0
     (run.result.state = .completed →
        run.result.brand_analysis.isSome ∧ run.result.content_generation.isSome ∧
          run.result.campaign_result.isSome) ∧
     (run.result.state = .failed →
        run.result.error_message.isSome ∧
          ∃ tc, run.result.completed_at = some tc ∧ run.result.started_at < tc)) := by
  have h := executeWorkflow_cases cfg plan input wid m0 t0
  rcases h with ⟨_, hst, hp, htc⟩ | ⟨e, _, hst, hmsg, htc⟩
  · exact ⟨fun _ => hp, fun hf => absurd (hst.symm.trans hf) (by decide)⟩
  · exact ⟨fun hc => absurd (hst.symm.trans hc) (by decide),
      fun _ => ⟨hmsg ▸ rfl, htc⟩⟩

/-- A small concrete brand-analysis result. -/
def demoBrand : BrandAnalysisResult :=
  { brand_profile := { brand_name := "Acme", industry := "Tech" },
    swot_analysis := {}, positioning_strategy := {} }

/-- A small concrete content-generation result. -/
def demoContent : ContentGenerationResult :=
  { content_assets := [], visual_assets := [] }

/-- A concrete campaign result carrying the given ROI. -/
def demoCampaign (roi : ℚ) : CampaignResult :=
  { campaign_plan := { campaign_id := "cid", campaign_name := "Acme Campaign",
                       total_budget := 100, budget_allocations := [],
                       channel_strategies := [] },
    performance_metrics := { roi := roi },
    optimization_feedback := {} }

/-- A concrete workflow input targeting `roi = 2`. -/
def demoInput : WorkflowInput :=
  { campaign_brief := "brief", budget := 100, target_platforms := [.linkedin],
    target_kpis := [("roi", 2)] }

/-- A stage plan where every call succeeds and every campaign misses ROI. -/
def demoPlanOk : StagePlan :=
  { stage1 := .ok demoBrand, stage2 := .ok demoContent,
    stage3 := .ok (demoCampaign 1),
    iterGen := fun _ => .ok demoContent,
    iterExec := fun _ => .ok (demoCampaign 1) }

/-- Witness for C5 at a concrete input: an all-success run with the feedback
loop disabled. -/
theorem C5_workflow_result_invariant_witness :
    (let run := executeWorkflow ⟨false, 2⟩ demoPlanOk demoInput "wid" {} 0
     (run.result.state = .completed →
        run.result.brand_analysis.isSome ∧ run.result.content_generation.isSome ∧
          run.result.campaign_result.isSome) ∧
     (run.result.state = .failed →
        run.result.error_message.isSome ∧
          ∃ tc, run.result.completed_at = some tc ∧ run.result.started_at < tc)) :=
  C5_workflow_result_invariant ⟨false, 2⟩ demoPlanOk demoInput "wid" {} 0

/-- C4: on an all-success run with the feedback loop disabled the workflow
state moves in strict order PENDING, ANALYZING_BRAND, GENERATING_CONTENT,
EXECUTING_CAMPAIGN, COMPLETED, each state mirrored to the session store
before the stage call; any unrecovered stage exception moves the state to
FAILED, records the message, stamps a completion time after the start, and
re-raises. -/
theorem C4_state_transitions (N : ℕ) (b : BrandAnalysisResult)
    (c : ContentGenerationResult) (k : CampaignResult)
    (ig : ℕ → Except String ContentGenerationResult)
    (ie : ℕ → Except String CampaignResult)
    (input : WorkflowInput) (wid : String) (m0 : SharedMemory WVal) (t0 : ℕ) :
    (let run := executeWorkflow ⟨false, N⟩ ⟨.ok b, .ok c, .ok k, ig, ie⟩
        input wid m0 t0
     run.trace = [.state .pending, .state .analyzing_brand, .stage 1,
                  .state .generating_content, .stage 2,
                  .state .executing_campaign, .stage 3, .state .completed] ∧
     run.raised = none ∧ run.result.state = .completed ∧
     run.memory.get "workflow_state" WVal.null = WVal.str "completed") ∧
    (∀ cfg plan e,
      (executeWorkflow cfg plan input wid m0 t0).raised = some e →
      (executeWorkflow cfg plan input wid m0 t0).result.state = .failed ∧
      (executeWorkflow cfg plan input wid m0 t0).result.error_message = some e ∧
      ∃ tc, (executeWorkflow cfg plan input wid m0 t0).result.completed_at = some tc ∧
        (executeWorkflow cfg plan input wid m0 t0).result.started_at < tc) := by
  constructor
  · refine ⟨rfl, rfl, rfl, ?_⟩
    rfl
  · intro cfg plan e hre
    have h := executeWorkflow_cases cfg plan input wid m0 t0
    rcases h with ⟨hn, _⟩ | ⟨e', hr, hst, hmsg, htc⟩
    · rw [hre] at hn; cases hn
    · rw [hre] at hr
      injection hr with he
      subst he
      exact ⟨hst, hmsg, htc⟩

/-- A stage plan whose second stage raises. -/
def demoPlanFail2 : StagePlan :=
  { stage1 := .ok demoBrand, stage2 := .error "boom",
    stage3 := .ok (demoCampaign 1),
    iterGen := fun _ => .ok demoContent,
    iterExec := fun _ => .ok (demoCampaign 1) }

/-- Witness for C4 at concrete inputs: the all-success ordered trace, and a
stage-2 failure moving the state to FAILED. -/
theorem C4_state_transitions_witness :
    (let run := executeWorkflow ⟨false, 2⟩ demoPlanOk demoInput "wid" {} 0
     run.trace = [.state .pending, .state .analyzing_brand, .stage 1,
                  .state .generating_content, .stage 2,
                  .state .executing_campaign, .stage 3, .state .completed] ∧
     run.raised = none ∧ run.result.state = .completed ∧
     run.memory.get "workflow_state" WVal.null = WVal.str "completed") ∧
    ((executeWorkflow ⟨false, 2⟩ demoPlanFail2 demoInput "wid" {} 0).result.state = .failed ∧
     (executeWorkflow ⟨false, 2⟩ demoPlanFail2 demoInput "wid" {} 0).result.error_message = some "boom" ∧
     ∃ tc, (executeWorkflow ⟨false, 2⟩ demoPlanFail2 demoInput "wid" {} 0).result.completed_at = some tc ∧
       (executeWorkflow ⟨false, 2⟩ demoPlanFail2 demoInput "wid" {} 0).result.started_at < tc) :=
  ⟨by
    have h := C4_state_transitions 2 demoBrand demoContent (demoCampaign 1)
      (fun _ => .ok demoContent) (fun _ => .ok (demoCampaign 1)) demoInput "wid" {} 0
    exact h.1,
   (C4_state_transitions 2 demoBrand demoContent (demoCampaign 1)
      (fun _ => .ok demoContent) (fun _ => .ok (demoCampaign 1)) demoInput "wid" {} 0).2
     ⟨false, 2⟩ demoPlanFail2 "boom" rfl⟩

/-! ## Claim C1: feedback-loop iteration counts -/

/-- The events of `n` full feedback iterations starting at index `s`. -/
def iterEvents : ℕ → ℕ → List WEvent
  | _, 0 => []
  | s, n + 1 => [.refine s, .regen s, .reexec s] ++ iterEvents (s + 1) n

def isRefineEv : WEvent → Bool
  | .refine _ => true
  | _ => false

def isRegenEv : WEvent → Bool
  | .regen _ => true
  | _ => false

def isReexecEv : WEvent → Bool
  | .reexec _ => true
  | _ => false

theorem iterEvents_countP : ∀ n s,
    (iterEvents s n).countP isRefineEv = n ∧
    (iterEvents s n).countP isRegenEv = n ∧
    (iterEvents s n).countP isReexecEv = n := by
  intro n
  induction n with
  | zero => intro s; simp [iterEvents]
  | succ n ih =>
      intro s
      obtain ⟨h1, h2, h3⟩ := ih (s + 1)
      simp [iterEvents, List.countP_cons, List.countP_append, h1, h2, h3,
        isRefineEv, isRegenEv, isReexecEv]

/-- When every iteration's sub-calls succeed and the predicate stays
unsatisfied, the loop runs all `rem` iterations and finishes normally. -/
theorem feedbackLoop_all (plan : StagePlan) (input : WorkflowInput)
    (ob : BrandAnalysisResult) :
    ∀ rem s res m t,
      (∀ j, s ≤ j → j < s + rem → ∃ c, plan.iterGen j = .ok c) →
      (∀ j, s ≤ j → j < s + rem → ∃ k, plan.iterExec j = .ok k ∧
          shouldOptimize input.target_kpis k.performance_metrics = true) →
      ∃ res' m' t',
        feedbackLoop plan input ob rem s res m t =
          .done res' m' t' (iterEvents s rem) := by
  intro rem
  induction rem with
  | zero => intro s res m t _ _; exact ⟨res, m, t, rfl⟩
  | succ rem ih =>
      intro s res m t hg he
      obtain ⟨c, hc⟩ := hg s le_rfl (by omega)
      obtain ⟨k, hk, ho⟩ := he s le_rfl (by omega)
      obtain ⟨res', m', t', hL⟩ := ih (s + 1)
        { res with brand_analysis := some ob, content_generation := some c,
                   campaign_result := some k }
        ((m.saveActive "content_generation" (WVal.content c) t).saveActive
          "campaign_result" (WVal.campaign k) (t + 1))
        (t + 2)
        (fun j hj hj' => hg j (by omega) (by omega))
        (fun j hj hj' => he j (by omega) (by omega))
      refine ⟨res', m', t', ?_⟩
      unfold feedbackLoop
      rw [hc, hk]
      simp only [ho, if_true, hL, LoopOut.consTrace]
      rw [iterEvents]

def LoopOut.isDone : LoopOut → Bool
  | .done _ _ _ _ => true
  | .raised _ _ _ _ _ => false

theorem feedbackLoop_all_trace (plan : StagePlan) (input : WorkflowInput)
    (ob : BrandAnalysisResult) (rem s : ℕ)
    (hg : ∀ j, s ≤ j → j < s + rem → ∃ c, plan.iterGen j = .ok c)
    (he : ∀ j, s ≤ j → j < s + rem → ∃ k, plan.iterExec j = .ok k ∧
        shouldOptimize input.target_kpis k.performance_metrics = true) :
    ∀ res m t, (feedbackLoop plan input ob rem s res m t).trace = iterEvents s rem := by
  intro res m t
  obtain ⟨res', m', t', hL⟩ := feedbackLoop_all plan input ob rem s res m t hg he
  rw [hL]
  rfl

theorem feedbackLoop_all_isDone (plan : StagePlan) (input : WorkflowInput)
    (ob : BrandAnalysisResult) (rem s : ℕ)
    (hg : ∀ j, s ≤ j → j < s + rem → ∃ c, plan.iterGen j = .ok c)
    (he : ∀ j, s ≤ j → j < s + rem → ∃ k, plan.iterExec j = .ok k ∧
        shouldOptimize input.target_kpis k.performance_metrics = true) :
    ∀ res m t, (feedbackLoop plan input ob rem s res m t).isDone = true := by
  intro res m t
  obtain ⟨res', m', t', hL⟩ := feedbackLoop_all plan input ob rem s res m t hg he
  rw [hL]
  rfl

/-- C1: with the feedback loop enabled and `max_iterations = N`, a predicate
that is unsatisfied after the initial run and never becomes satisfied makes
the refine/regenerate/re-execute sub-pipeline run exactly `N - 1` additional
times; a predicate satisfied after the first additional iteration makes
exactly one additional iteration run with an early exit; and any run that
finishes without an unrecovered exception ends in state `COMPLETED` with a
completion timestamp, whether or not the KPIs were met. -/
theorem C1_feedback_loop_iterations (N : ℕ) (b : BrandAnalysisResult)
    (c0 : ContentGenerationResult) (k0 : CampaignResult)
    (cs : ℕ → ContentGenerationResult) (ks : ℕ → CampaignResult)
    (input : WorkflowInput) (wid : String) (m0 : SharedMemory WVal) (t0 : ℕ) :
    (shouldOptimize input.target_kpis k0.performance_metrics = true →
     (∀ j, shouldOptimize input.target_kpis (ks j).performance_metrics = true) →
     let run := executeWorkflow ⟨true, N⟩
         ⟨.ok b, .ok c0, .ok k0, fun j => .ok (cs j), fun j => .ok (ks j)⟩
         input wid m0 t0
     run.trace.countP isRefineEv = N - 1 ∧ run.trace.countP isRegenEv = N - 1 ∧
       run.trace.countP isReexecEv = N - 1) ∧
    (2 ≤ N →
     shouldOptimize input.target_kpis k0.performance_metrics = true →
     shouldOptimize input.target_kpis (ks 0).performance_metrics = false →
     let run := executeWorkflow ⟨true, N⟩
         ⟨.ok b, .ok c0, .ok k0, fun j => .ok (cs j), fun j => .ok (ks j)⟩
         input wid m0 t0
     run.trace.countP isRefineEv = 1 ∧ run.trace.countP isRegenEv = 1 ∧
       run.trace.countP isReexecEv = 1 ∧
       run.result.campaign_result = some (ks 0) ∧ run.raised = none ∧
       run.result.state = .completed) ∧
    (∀ cfg plan,
      (executeWorkflow cfg plan input wid m0 t0).raised = none →
      (executeWorkflow cfg plan input wid m0 t0).result.state = .completed ∧
      ((executeWorkflow cfg plan input wid m0 t0).result.completed_at).isSome) := by
  refine ⟨?_, ?_, ?_⟩
  · intro ho hks
    have hg : ∀ j, 0 ≤ j → j < 0 + (N - 1) →
        ∃ c, (⟨.ok b, .ok c0, .ok k0, fun j => .ok (cs j), fun j => .ok (ks j)⟩ :
          StagePlan).iterGen j = .ok c := fun j _ _ => ⟨cs j, rfl⟩
    have he : ∀ j, 0 ≤ j → j < 0 + (N - 1) →
        ∃ k, (⟨.ok b, .ok c0, .ok k0, fun j => .ok (cs j), fun j => .ok (ks j)⟩ :
          StagePlan).iterExec j = .ok k ∧
          shouldOptimize input.target_kpis k.performance_metrics = true :=
      fun j _ _ => ⟨ks j, rfl, hks j⟩
    obtain ⟨h1, h2, h3⟩ := iterEvents_countP (N - 1) 0
    simp only [executeWorkflow, ho, Bool.and_true, Bool.and_self, if_true]
    split
    next res' m' t' trL heq =>
      have htr := congrArg LoopOut.trace heq
      rw [show LoopOut.trace (LoopOut.done res' m' t' trL) = trL from rfl] at htr
      rw [feedbackLoop_all_trace _ input b (N - 1) 0 hg he] at htr
      subst htr
      simp [completeRun, List.countP_append, List.countP_cons, h1, h2, h3,
        isRefineEv, isRegenEv, isReexecEv]
    next e res' m' t' trL heq =>
      have hd := congrArg LoopOut.isDone heq
      rw [show LoopOut.isDone (LoopOut.raised e res' m' t' trL) = false from rfl] at hd
      rw [feedbackLoop_all_isDone _ input b (N - 1) 0 hg he] at hd
      cases hd
  · intro hN ho hb0
    obtain ⟨r, hr⟩ : ∃ r, N - 1 = r + 1 := ⟨N - 2, by omega⟩
    simp only [executeWorkflow, ho, Bool.and_true, Bool.and_self, if_true, hr]
    simp [feedbackLoop, hb0, completeRun, LoopOut.consTrace, List.countP_append,
      List.countP_cons, isRefineEv, isRegenEv, isReexecEv]
  · intro cfg plan hre
    have h := executeWorkflow_cases cfg plan input wid m0 t0
    rcases h with ⟨_, hst, _, tc, htc, _⟩ | ⟨e, hr, _, _, _⟩
    · exact ⟨hst, by rw [htc]; rfl⟩
    · rw [hre] at hr; cases hr

/-- A stage plan whose feedback iterations reach the ROI target. -/
def demoPlanSat : StagePlan :=
  { stage1 := .ok demoBrand, stage2 := .ok demoContent,
    stage3 := .ok (demoCampaign 1),
    iterGen := fun _ => .ok demoContent,
    iterExec := fun _ => .ok (demoCampaign 3) }

/-- Witness for C1 at concrete inputs: `max_iterations = 3` with a
never-satisfied predicate (2 extra iterations), a predicate satisfied after
the first extra iteration (1 extra iteration), and a completed run. -/
theorem C1_feedback_loop_iterations_witness :
    (let run := executeWorkflow ⟨true, 3⟩ demoPlanOk demoInput "wid" {} 0
     run.trace.countP isRefineEv = 3 - 1 ∧ run.trace.countP isRegenEv = 3 - 1 ∧
       run.trace.countP isReexecEv = 3 - 1) ∧
    (let run := executeWorkflow ⟨true, 3⟩ demoPlanSat demoInput "wid" {} 0
     run.trace.countP isRefineEv = 1 ∧ run.trace.countP isRegenEv = 1 ∧
       run.trace.countP isReexecEv = 1 ∧
       run.result.campaign_result = some (demoCampaign 3) ∧ run.raised = none ∧
       run.result.state = .completed) ∧
    ((executeWorkflow ⟨false, 2⟩ demoPlanOk demoInput "wid" {} 0).result.state = .completed ∧
     ((executeWorkflow ⟨false, 2⟩ demoPlanOk demoInput "wid" {} 0).result.completed_at).isSome) :=
  ⟨(C1_feedback_loop_iterations 3 demoBrand demoContent (demoCampaign 1)
      (fun _ => demoContent) (fun _ => demoCampaign 1) demoInput "wid" {} 0).1
      (by decide) (fun _ => by decide),
   (C1_feedback_loop_iterations 3 demoBrand demoContent (demoCampaign 1)
      (fun _ => demoContent) (fun _ => demoCampaign 3) demoInput "wid" {} 0).2.1
      (by omega) (by decide) (by decide),
   (C1_feedback_loop_iterations 3 demoBrand demoContent (demoCampaign 1)
      (fun _ => demoContent) (fun _ => demoCampaign 1) demoInput "wid" {} 0).2.2
      ⟨false, 2⟩ demoPlanOk rfl⟩

/-! ## Claim C6: errors inside feedback iterations -/

def isRefineAt (j : ℕ) : WEvent → Bool
  | .refine i => i == j
  | _ => false

def isRegenAt (j : ℕ) : WEvent → Bool
  | .regen i => i == j
  | _ => false

def isReexecAt (j : ℕ) : WEvent → Bool
  | .reexec i => i == j
  | _ => false

theorem iterEvents_countP_at : ∀ n s j,
    (iterEvents s n).countP (isRefineAt j) = (if s ≤ j ∧ j < s + n then 1 else 0) ∧
    (iterEvents s n).countP (isRegenAt j) = (if s ≤ j ∧ j < s + n then 1 else 0) ∧
    (iterEvents s n).countP (isReexecAt j) = (if s ≤ j ∧ j < s + n then 1 else 0) := by
  intro n
  induction n with
  | zero =>
      intro s j
      refine ⟨?_, ?_, ?_⟩ <;> simp [iterEvents] <;> split_ifs <;> omega
  | succ n ih =>
      intro s j
      obtain ⟨h1, h2, h3⟩ := ih (s + 1) j
      by_cases hj : s = j
      · subst hj
        refine ⟨?_, ?_, ?_⟩ <;>
          simp [iterEvents, List.countP_cons, List.countP_append, h1, h2, h3,
            isRefineAt, isRegenAt, isReexecAt] <;> omega
      · have hsj : (s == j) = false := by simp [hj]
        refine ⟨?_, ?_, ?_⟩ <;>
          simp [iterEvents, List.countP_cons, List.countP_append, h1, h2, h3,
            isRefineAt, isRegenAt, isReexecAt, hsj] <;>
          split_ifs <;> omega

/-- The feedback loop's own trace is always `q` full iteration blocks
followed by at most one partial block at index `s + q`. -/
theorem feedbackLoop_trace_shape (plan : StagePlan) (input : WorkflowInput)
    (ob : BrandAnalysisResult) :
    ∀ rem s res m t, ∃ q, q ≤ rem ∧
      ((feedbackLoop plan input ob rem s res m t).trace = iterEvents s q ∨
       (feedbackLoop plan input ob rem s res m t).trace =
         iterEvents s q ++ [.refine (s + q), .regen (s + q)] ∨
       (feedbackLoop plan input ob rem s res m t).trace =
         iterEvents s q ++ [.refine (s + q), .regen (s + q), .reexec (s + q)]) := by
  intro rem
  induction rem with
  | zero => intro s res m t; exact ⟨0, le_rfl, .inl rfl⟩
  | succ rem ih =>
      intro s res m t
      unfold feedbackLoop
      cases hgen : plan.iterGen s with
      | error e =>
          exact ⟨0, by omega, .inr (.inl (by simp [LoopOut.trace, iterEvents]))⟩
      | ok c =>
          cases hexec : plan.iterExec s with
          | error e =>
              exact ⟨0, by omega, .inr (.inr (by simp [LoopOut.trace, iterEvents]))⟩
          | ok k =>
              by_cases ho : shouldOptimize input.target_kpis k.performance_metrics
              · simp only [ho, if_true, consTrace_trace]
                obtain ⟨q, hq, hsh⟩ := ih (s + 1)
                  { res with brand_analysis := some ob, content_generation := some c,
                             campaign_result := some k }
                  ((m.saveActive "content_generation" (WVal.content c) t).saveActive
                    "campaign_result" (WVal.campaign k) (t + 1))
                  (t + 2)
                refine ⟨q + 1, by omega, ?_⟩
                have harith : s + 1 + q = s + (q + 1) := by omega
                rcases hsh with h | h | h
                · exact .inl (by rw [h]; rfl)
                · exact .inr (.inl (by rw [h, iterEvents, harith]; simp))
                · exact .inr (.inr (by rw [h, iterEvents, harith]; simp))
              · refine ⟨1, by omega, .inl ?_⟩
                simp [ho, LoopOut.trace, iterEvents]

theorem feedbackLoop_countP_at (plan : StagePlan) (input : WorkflowInput)
    (ob : BrandAnalysisResult) (rem s : ℕ) (res : WorkflowResult)
    (m : SharedMemory WVal) (t : ℕ) (j : ℕ) :
    (feedbackLoop plan input ob rem s res m t).trace.countP (isRefineAt j) ≤ 1 ∧
    (feedbackLoop plan input ob rem s res m t).trace.countP (isRegenAt j) ≤ 1 ∧
    (feedbackLoop plan input ob rem s res m t).trace.countP (isReexecAt j) ≤ 1 := by
  obtain ⟨q, hq, hsh⟩ := feedbackLoop_trace_shape plan input ob rem s res m t
  obtain ⟨h1, h2, h3⟩ := iterEvents_countP_at q s j
  rcases hsh with h | h | h <;> rw [h] <;>
    refine ⟨?_, ?_, ?_⟩ <;>
    simp only [List.countP_append, List.countP_cons, List.countP_nil,
      isRefineAt, isRegenAt, isReexecAt, h1, h2, h3, beq_iff_eq,
      Bool.false_eq_true, if_false] <;>
    split_ifs <;> omega

/-- The pre-loop part of every successful three-stage run: the events... -/
def wfPrefixTrace : List WEvent :=
  [.state .pending, .state .analyzing_brand, .stage 1,
   .state .generating_content, .stage 2, .state .executing_campaign, .stage 3]

/-- The in-memory workflow result right after the three stages succeed. -/
def wfEntryRes (wid : String) (b : BrandAnalysisResult)
    (c0 : ContentGenerationResult) (k0 : CampaignResult) (t0 : ℕ) : WorkflowResult :=
  { workflow_id := wid, state := .executing_campaign, brand_analysis := some b,
    content_generation := some c0, campaign_result := some k0,
    started_at := t0 + 1 }

/-- The session store right after the three stages succeed. -/
def wfEntryMem (m0 : SharedMemory WVal) (b : BrandAnalysisResult)
    (c0 : ContentGenerationResult) (k0 : CampaignResult) (t0 : ℕ) : SharedMemory WVal :=
  (((((((m0.create_session none t0).2.setWorkflowStateActive
      WorkflowState.analyzing_brand.val (t0 + 2)).saveActive
      "brand_analysis" (WVal.brand b) (t0 + 3)).setWorkflowStateActive
      WorkflowState.generating_content.val (t0 + 4)).saveActive
      "content_generation" (WVal.content c0) (t0 + 5)).setWorkflowStateActive
      WorkflowState.executing_campaign.val (t0 + 6)).saveActive
      "campaign_result" (WVal.campaign k0) (t0 + 7))

/-- Unfolding of `executeWorkflow` when all three stage calls succeed. -/
theorem executeWorkflow_ok_unfold (cfg : CoordinatorConfig)
    (b : BrandAnalysisResult) (c0 : ContentGenerationResult) (k0 : CampaignResult)
    (ig : ℕ → Except String ContentGenerationResult)
    (ie : ℕ → Except String CampaignResult)
    (input : WorkflowInput) (wid : String) (m0 : SharedMemory WVal) (t0 : ℕ) :
    executeWorkflow cfg ⟨.ok b, .ok c0, .ok k0, ig, ie⟩ input wid m0 t0 =
      (if cfg.enable_feedback_loop
          && shouldOptimize input.target_kpis k0.performance_metrics then
        match feedbackLoop ⟨.ok b, .ok c0, .ok k0, ig, ie⟩ input b
            (cfg.max_iterations - 1) 0 (wfEntryRes wid b c0 k0 t0)
            (wfEntryMem m0 b c0 k0 t0) (t0 + 8) with
        | .done res' m' t' trL => completeRun res' m' t' (wfPrefixTrace ++ trL)
        | .raised e res' m' t' trL => failWith res' m' t' (wfPrefixTrace ++ trL) e
      else completeRun (wfEntryRes wid b c0 k0 t0) (wfEntryMem m0 b c0 k0 t0)
        (t0 + 8) wfPrefixTrace) := rfl

/-- Across a whole workflow execution, each feedback iteration performs its
refine, regenerate and re-execute sub-calls at most once (no retry wrapper
inside the loop). -/
theorem executeWorkflow_countP_at (cfg : CoordinatorConfig) (plan : StagePlan)
    (input : WorkflowInput) (wid : String) (m0 : SharedMemory WVal) (t0 : ℕ)
    (j : ℕ) :
    (executeWorkflow cfg plan input wid m0 t0).trace.countP (isRefineAt j) ≤ 1 ∧
    (executeWorkflow cfg plan input wid m0 t0).trace.countP (isRegenAt j) ≤ 1 ∧
    (executeWorkflow cfg plan input wid m0 t0).trace.countP (isReexecAt j) ≤ 1 := by
  obtain ⟨s1, s2, s3, ig, ie⟩ := plan
  cases s1 with
  | error e =>
      refine ⟨?_, ?_, ?_⟩ <;>
        simp [executeWorkflow, failWith, List.countP_cons,
          isRefineAt, isRegenAt, isReexecAt]
  | ok b =>
  cases s2 with
  | error e =>
      refine ⟨?_, ?_, ?_⟩ <;>
        simp [executeWorkflow, failWith, List.countP_cons,
          isRefineAt, isRegenAt, isReexecAt]
  | ok c =>
  cases s3 with
  | error e =>
      refine ⟨?_, ?_, ?_⟩ <;>
        simp [executeWorkflow, failWith, List.countP_cons,
          isRefineAt, isRegenAt, isReexecAt]
  | ok k =>
      rw [executeWorkflow_ok_unfold]
      split
      · split
        next res' m' t' trL heq =>
          have htr := congrArg LoopOut.trace heq
          rw [show LoopOut.trace (LoopOut.done res' m' t' trL) = trL from rfl] at htr
          obtain ⟨h1, h2, h3⟩ := feedbackLoop_countP_at ⟨.ok b, .ok c, .ok k, ig, ie⟩
            input b (cfg.max_iterations - 1) 0 (wfEntryRes wid b c k t0)
            (wfEntryMem m0 b c k t0) (t0 + 8) j
          rw [htr] at h1 h2 h3
          refine ⟨?_, ?_, ?_⟩ <;>
            simp [completeRun, wfPrefixTrace, List.countP_append, List.countP_cons,
              isRefineAt, isRegenAt, isReexecAt, h1, h2, h3]
        next e res' m' t' trL heq =>
          have htr := congrArg LoopOut.trace heq
          rw [show LoopOut.trace (LoopOut.raised e res' m' t' trL) = trL from rfl] at htr
          obtain ⟨h1, h2, h3⟩ := feedbackLoop_countP_at ⟨.ok b, .ok c, .ok k, ig, ie⟩
            input b (cfg.max_iterations - 1) 0 (wfEntryRes wid b c k t0)
            (wfEntryMem m0 b c k t0) (t0 + 8) j
          rw [htr] at h1 h2 h3
          refine ⟨?_, ?_, ?_⟩ <;>
            simp [failWith, wfPrefixTrace, List.countP_append, List.countP_cons,
              isRefineAt, isRegenAt, isReexecAt, h1, h2, h3]
      · refine ⟨?_, ?_, ?_⟩ <;>
          simp [completeRun, wfPrefixTrace, List.countP_cons, List.countP_append,
            isRefineAt, isRegenAt, isReexecAt]

/-- When the loop runs `i` full successful iterations and iteration `i`'s
regeneration (case 1) or re-execution (case 2) raises, the exception
propagates out of the loop and the store holds the last successfully
persisted values: the pre-iteration slots when regeneration fails, and the
just-regenerated content (but the previous campaign result) when
re-execution fails. -/
theorem feedbackLoop_raise_mem (plan : StagePlan) (input : WorkflowInput)
    (ob : BrandAnalysisResult) (sid : String)
    (cs : ℕ → ContentGenerationResult) (ks : ℕ → CampaignResult) :
    ∀ i rem s res m t cv kv,
      m.session_id = some sid →
      m.get "content_generation" WVal.null = cv →
      m.get "campaign_result" WVal.null = kv →
      (∀ j, j < i → plan.iterGen (s + j) = .ok (cs (s + j))) →
      (∀ j, j < i → plan.iterExec (s + j) = .ok (ks (s + j))) →
      (∀ j, j < i →
        shouldOptimize input.target_kpis (ks (s + j)).performance_metrics = true) →
      i < rem →
      (∀ e, plan.iterGen (s + i) = .error e →
        ∃ res' m' t' tr,
          feedbackLoop plan input ob rem s res m t = .raised e res' m' t' tr ∧
          m'.get "content_generation" WVal.null =
            (if i = 0 then cv else WVal.content (cs (s + i - 1))) ∧
          m'.get "campaign_result" WVal.null =
            (if i = 0 then kv else WVal.campaign (ks (s + i - 1))) ∧
          m'.session_id = some sid) ∧
      (∀ ci e, plan.iterGen (s + i) = .ok ci → plan.iterExec (s + i) = .error e →
        ∃ res' m' t' tr,
          feedbackLoop plan input ob rem s res m t = .raised e res' m' t' tr ∧
          m'.get "content_generation" WVal.null = WVal.content ci ∧
          m'.get "campaign_result" WVal.null =
            (if i = 0 then kv else WVal.campaign (ks (s + i - 1))) ∧
          m'.session_id = some sid) := by
  intro i
  induction i with
  | zero =>
      intro rem s res m t cv kv hsid hc hk _ _ _ hlt
      obtain ⟨rem', hrem⟩ : ∃ rem', rem = rem' + 1 := ⟨rem - 1, by omega⟩
      subst hrem
      constructor
      · intro e hge
        rw [Nat.add_zero] at hge
        refine ⟨res, m, t, [.refine s, .regen s], ?_, by simpa using hc,
          by simpa using hk, hsid⟩
        simp only [feedbackLoop, hge]
      · intro ci e hgo hee
        rw [Nat.add_zero] at hgo hee
        refine ⟨res, m.saveActive "content_generation" (WVal.content ci) t, t + 1,
          [.refine s, .regen s, .reexec s], ?_, ?_, ?_, ?_⟩
        · simp only [feedbackLoop, hgo, hee]
        · exact saveActive_get_self _ sid _ _ _ _ hsid (by decide)
        · rw [saveActive_get_other _ _ _ _ _ _ (by decide) (by decide)]
          simpa using hk
        · rw [saveActive_session_id]; exact hsid
  | succ i ih =>
      intro rem s res m t cv kv hsid hc hk hg he hks hlt
      have hg0 : plan.iterGen s = .ok (cs s) := by
        have := hg 0 (by omega); rwa [Nat.add_zero] at this
      have he0 : plan.iterExec s = .ok (ks s) := by
        have := he 0 (by omega); rwa [Nat.add_zero] at this
      have hks0 : shouldOptimize input.target_kpis (ks s).performance_metrics = true := by
        have := hks 0 (by omega); rwa [Nat.add_zero] at this
      obtain ⟨rem', hrem⟩ : ∃ rem', rem = rem' + 1 := ⟨rem - 1, by omega⟩
      subst hrem
      set m2 := (m.saveActive "content_generation" (WVal.content (cs s)) t).saveActive
        "campaign_result" (WVal.campaign (ks s)) (t + 1) with hm2
      have hsid2 : m2.session_id = some sid := by
        rw [hm2, saveActive_session_id, saveActive_session_id]; exact hsid
      have hc2 : m2.get "content_generation" WVal.null = WVal.content (cs s) := by
        rw [hm2, saveActive_get_other _ _ _ _ _ _ (by decide) (by decide)]
        exact saveActive_get_self _ sid _ _ _ _ hsid (by decide)
      have hk2 : m2.get "campaign_result" WVal.null = WVal.campaign (ks s) := by
        rw [hm2]
        refine saveActive_get_self _ sid _ _ _ _ ?_ (by decide)
        rw [saveActive_session_id]; exact hsid
      have hshift : ∀ P : ℕ → Prop, (∀ j, j < i + 1 → P (s + j)) →
          ∀ j, j < i → P (s + 1 + j) := by
        intro P hP j hj
        have := hP (j + 1) (by omega)
        rwa [show s + (j + 1) = s + 1 + j from by omega] at this
      have IH := ih rem' (s + 1)
        { res with brand_analysis := some ob, content_generation := some (cs s),
                   campaign_result := some (ks s) }
        m2 (t + 2) (WVal.content (cs s)) (WVal.campaign (ks s))
        hsid2 hc2 hk2
        (hshift (fun n => plan.iterGen n = .ok (cs n)) hg)
        (hshift (fun n => plan.iterExec n = .ok (ks n)) he)
        (hshift (fun n => shouldOptimize input.target_kpis
          (ks n).performance_metrics = true) hks)
        (by omega)
      have hunfold : feedbackLoop plan input ob (rem' + 1) s res m t =
          (feedbackLoop plan input ob rem' (s + 1)
            { res with brand_analysis := some ob, content_generation := some (cs s),
                       campaign_result := some (ks s) }
            m2 (t + 2)).consTrace [.refine s, .regen s, .reexec s] := by
        simp only [feedbackLoop, hg0, he0, hks0, if_true, hm2]
      have harith : s + 1 + i = s + (i + 1) := by omega
      have hval : ∀ {α : Type} (f : ℕ → α),
          (if i = 0 then f s else f (s + 1 + i - 1)) = f (s + (i + 1) - 1) := by
        intro α f
        rcases Nat.eq_zero_or_pos i with h0 | h0
        · subst h0; simp
        · rw [if_neg (by omega), show s + 1 + i - 1 = s + (i + 1) - 1 from by omega]
      constructor
      · intro e hge
        rw [← harith] at hge
        obtain ⟨res', m', t', tr, Heq, H1, H2, H3⟩ := IH.1 e hge
        refine ⟨res', m', t', [.refine s, .regen s, .reexec s] ++ tr, ?_, ?_, ?_, H3⟩
        · rw [hunfold, Heq]; rfl
        · rw [H1, hval (fun n => WVal.content (cs n)), if_neg (Nat.succ_ne_zero i)]
        · rw [H2, hval (fun n => WVal.campaign (ks n)), if_neg (Nat.succ_ne_zero i)]
      · intro ci e hgo hee
        rw [← harith] at hgo hee
        obtain ⟨res', m', t', tr, Heq, H1, H2, H3⟩ := IH.2 ci e hgo hee
        refine ⟨res', m', t', [.refine s, .regen s, .reexec s] ++ tr, ?_, H1, ?_, H3⟩
        · rw [hunfold, Heq]; rfl
        · rw [H2, hval (fun n => WVal.campaign (ks n)), if_neg (Nat.succ_ne_zero i)]

theorem wfEntryMem_session_id (m0 : SharedMemory WVal) (b : BrandAnalysisResult)
    (c0 : ContentGenerationResult) (k0 : CampaignResult) (t0 : ℕ) :
    (wfEntryMem m0 b c0 k0 t0).session_id = some ("session_" ++ toString t0) := rfl

theorem wfEntryMem_content (m0 : SharedMemory WVal) (b : BrandAnalysisResult)
    (c0 : ContentGenerationResult) (k0 : CampaignResult) (t0 : ℕ) :
    (wfEntryMem m0 b c0 k0 t0).get "content_generation" WVal.null =
      WVal.content c0 := rfl

theorem wfEntryMem_campaign (m0 : SharedMemory WVal) (b : BrandAnalysisResult)
    (c0 : ContentGenerationResult) (k0 : CampaignResult) (t0 : ℕ) :
    (wfEntryMem m0 b c0 k0 t0).get "campaign_result" WVal.null =
      WVal.campaign k0 := rfl

/-- A second concrete content result, distinguishable from `demoContent`. -/
def demoContent2 : ContentGenerationResult :=
  { content_assets := [], visual_assets := [], created_at := 1 }

/-- A plan whose feedback iteration regenerates content successfully and
then raises while re-executing the campaign. -/
def demoPlanIterFail : StagePlan :=
  { stage1 := .ok demoBrand, stage2 := .ok demoContent,
    stage3 := .ok (demoCampaign 1),
    iterGen := fun _ => .ok demoContent2,
    iterExec := fun _ => .error "boom" }

/-- Counterexample to C6 as stated: an exception raised inside feedback
iteration 0 (after its regeneration sub-call persisted) leaves the session
store's `content_generation` slot holding the aborted iteration's freshly
regenerated content, not the pre-iteration value persisted by stage 2. -/
theorem C6_counterexample :
    (let run := executeWorkflow ⟨true, 2⟩ demoPlanIterFail demoInput "wid" {} 0
     run.raised = some "boom" ∧
     run.trace.countP (isRegenAt 0) = 1 ∧
     run.memory.get "content_generation" WVal.null = WVal.content demoContent2 ∧
     WVal.content demoContent2 ≠ WVal.content demoContent) := by
  refine ⟨rfl, rfl, rfl, ?_⟩
  simp [demoContent, demoContent2]

/-- C6 (amended): no retry is applied to feedback sub-calls (each of
refine/regenerate/re-execute runs at most once per iteration index), an
exception inside an iteration propagates out of the workflow call, and the
session store is left holding the last successfully persisted results:
pre-iteration values when the iteration's regeneration fails, but the
iteration's own regenerated content (with the previous campaign result)
when its re-execution fails after the regeneration persisted. -/
theorem C6_feedback_iteration_errors (cfg0 : CoordinatorConfig) (plan0 : StagePlan)
    (input0 : WorkflowInput) (wid0 : String) (mem0 : SharedMemory WVal) (t00 j0 : ℕ) :
    ((executeWorkflow cfg0 plan0 input0 wid0 mem0 t00).trace.countP (isRefineAt j0) ≤ 1 ∧
     (executeWorkflow cfg0 plan0 input0 wid0 mem0 t00).trace.countP (isRegenAt j0) ≤ 1 ∧
     (executeWorkflow cfg0 plan0 input0 wid0 mem0 t00).trace.countP (isReexecAt j0) ≤ 1) ∧
    (∀ (N i : ℕ) (b : BrandAnalysisResult) (c0 : ContentGenerationResult)
       (k0 : CampaignResult) (cs : ℕ → ContentGenerationResult)
       (ks : ℕ → CampaignResult) (ig : ℕ → Except String ContentGenerationResult)
       (ie : ℕ → Except String CampaignResult) (input : WorkflowInput)
       (wid : String) (m0 : SharedMemory WVal) (t0 : ℕ),
      shouldOptimize input.target_kpis k0.performance_metrics = true →
      (∀ j, j < i → ig j = .ok (cs j)) →
      (∀ j, j < i → ie j = .ok (ks j)) →
      (∀ j, j < i →
        shouldOptimize input.target_kpis (ks j).performance_metrics = true) →
      i < N - 1 →
      let run := executeWorkflow ⟨true, N⟩ ⟨.ok b, .ok c0, .ok k0, ig, ie⟩
          input wid m0 t0
      (∀ e, ig i = .error e →
        run.raised = some e ∧ run.result.state = .failed ∧
        run.memory.get "content_generation" WVal.null =
          (if i = 0 then WVal.content c0 else WVal.content (cs (i - 1))) ∧
        run.memory.get "campaign_result" WVal.null =
          (if i = 0 then WVal.campaign k0 else WVal.campaign (ks (i - 1)))) ∧
      (∀ ci e, ig i = .ok ci → ie i = .error e →
        run.raised = some e ∧ run.result.state = .failed ∧
        run.memory.get "content_generation" WVal.null = WVal.content ci ∧
        run.memory.get "campaign_result" WVal.null =
          (if i = 0 then WVal.campaign k0 else WVal.campaign (ks (i - 1))))) := by
  refine ⟨executeWorkflow_countP_at cfg0 plan0 input0 wid0 mem0 t00 j0, ?_⟩
  intro N i b c0 k0 cs ks ig ie input wid m0 t0 ho hg he hks hi
  have base := feedbackLoop_raise_mem ⟨.ok b, .ok c0, .ok k0, ig, ie⟩ input b
    ("session_" ++ toString t0) cs ks i (N - 1) 0 (wfEntryRes wid b c0 k0 t0)
    (wfEntryMem m0 b c0 k0 t0) (t0 + 8) (WVal.content c0) (WVal.campaign k0)
    (wfEntryMem_session_id m0 b c0 k0 t0) (wfEntryMem_content m0 b c0 k0 t0)
    (wfEntryMem_campaign m0 b c0 k0 t0)
    (fun j hj => by simpa using hg j hj)
    (fun j hj => by simpa using he j hj)
    (fun j hj => by simpa using hks j hj) hi
  have hcond : ((⟨true, N⟩ : CoordinatorConfig).enable_feedback_loop
      && shouldOptimize input.target_kpis k0.performance_metrics) = true := by
    rw [ho]; rfl
  constructor
  · intro e hge
    obtain ⟨res', m', t', tr, Heq, H1, H2, H3⟩ := base.1 e (by simpa using hge)
    rw [executeWorkflow_ok_unfold, if_pos hcond,
      show (⟨true, N⟩ : CoordinatorConfig).max_iterations = N from rfl, Heq]
    refine ⟨rfl, rfl, ?_, ?_⟩
    · show ((m'.saveActive "workflow_state"
        (MemVal.str WorkflowState.failed.val) (t' + 1)).get
        "content_generation" WVal.null) = _
      rw [saveActive_get_other _ _ _ _ _ _ (by decide) (by decide), H1]
      simp only [Nat.zero_add]
    · show ((m'.saveActive "workflow_state"
        (MemVal.str WorkflowState.failed.val) (t' + 1)).get
        "campaign_result" WVal.null) = _
      rw [saveActive_get_other _ _ _ _ _ _ (by decide) (by decide), H2]
      simp only [Nat.zero_add]
  · intro ci e hgo hee
    obtain ⟨res', m', t', tr, Heq, H1, H2, H3⟩ :=
      base.2 ci e (by simpa using hgo) (by simpa using hee)
    rw [executeWorkflow_ok_unfold, if_pos hcond,
      show (⟨true, N⟩ : CoordinatorConfig).max_iterations = N from rfl, Heq]
    refine ⟨rfl, rfl, ?_, ?_⟩
    · show ((m'.saveActive "workflow_state"
        (MemVal.str WorkflowState.failed.val) (t' + 1)).get
        "content_generation" WVal.null) = _
      rw [saveActive_get_other _ _ _ _ _ _ (by decide) (by decide), H1]
    · show ((m'.saveActive "workflow_state"
        (MemVal.str WorkflowState.failed.val) (t' + 1)).get
        "campaign_result" WVal.null) = _
      rw [saveActive_get_other _ _ _ _ _ _ (by decide) (by decide), H2]
      simp only [Nat.zero_add]

/-- Witness for the amended C6 at a concrete input: the run whose first
feedback iteration regenerates successfully and fails on re-execution. -/
theorem C6_feedback_iteration_errors_witness :
    ((executeWorkflow ⟨true, 2⟩ demoPlanIterFail demoInput "wid" {} 0).trace.countP
        (isRefineAt 0) ≤ 1 ∧
     (executeWorkflow ⟨true, 2⟩ demoPlanIterFail demoInput "wid" {} 0).trace.countP
        (isRegenAt 0) ≤ 1 ∧
     (executeWorkflow ⟨true, 2⟩ demoPlanIterFail demoInput "wid" {} 0).trace.countP
        (isReexecAt 0) ≤ 1) ∧
    (let run := executeWorkflow ⟨true, 2⟩
        ⟨.ok demoBrand, .ok demoContent, .ok (demoCampaign 1),
          fun _ => .ok demoContent2, fun _ => .error "boom"⟩ demoInput "wid" {} 0
     run.raised = some "boom" ∧ run.result.state = .failed ∧
     run.memory.get "content_generation" WVal.null = WVal.content demoContent2 ∧
     run.memory.get "campaign_result" WVal.null =
       (if 0 = 0 then WVal.campaign (demoCampaign 1)
        else WVal.campaign ((fun _ => demoCampaign 1) (0 - 1)))) :=
  ⟨(C6_feedback_iteration_errors ⟨true, 2⟩ demoPlanIterFail demoInput "wid" {} 0 0).1,
   ((C6_feedback_iteration_errors ⟨true, 2⟩ demoPlanIterFail demoInput "wid" {} 0 0).2
      2 0 demoBrand demoContent (demoCampaign 1) (fun _ => demoContent2)
      (fun _ => demoCampaign 1) (fun _ => .ok demoContent2) (fun _ => .error "boom")
      demoInput "wid" {} 0 (by decide)
      (fun j hj => absurd hj (Nat.not_lt_zero j))
      (fun j hj => absurd hj (Nat.not_lt_zero j))
      (fun j hj => absurd hj (Nat.not_lt_zero j))
      (by decide)).2 demoContent2 "boom" rfl rfl⟩

/-! ## Claims C7 and C8: session store contract and round-trips -/

/-- C7: `save` raises the no-active-session error iff no session is open;
with an open session it overwrites the slot, stamps `updated_at` and
persists the whole session; and `load_session` of a nonexistent id returns
`False` without raising or mutating. -/
theorem C7_session_store_save_load (m : SharedMemory JValue) (k : String)
    (v : PyVal) (t : ℕ) (sid : String) :
    ((∃ e, m.savePy k v t = .error e) ↔ m.session_id = none) ∧
    (m.session_id = some sid → k ≠ "updated_at" →
      ∃ m', m.savePy k v t = .ok m' ∧
        m'.get k JValue.null = v.dump ∧
        m'.get "updated_at" JValue.null = .num t ∧
        alistLookup m'.disk sid = some m'.memory) ∧
    (alistLookup m.disk sid = none → m.load_session sid = (false, m)) := by
  refine ⟨?_, ?_, ?_⟩
  · unfold SharedMemory.savePy SharedMemory.save
    cases hm : m.session_id with
    | none => exact ⟨fun _ => rfl, fun _ => ⟨_, rfl⟩⟩
    | some s =>
        refine ⟨fun ⟨e, he⟩ => ?_, fun h => by cases h⟩
        cases he
  · intro hsid hk
    refine ⟨m.saveActive k v.dump t, ?_, ?_, ?_, ?_⟩
    · unfold SharedMemory.savePy SharedMemory.save
      rw [hsid]
    · exact saveActive_get_self _ sid _ _ _ _ hsid hk
    · unfold SharedMemory.saveActive SharedMemory.get
      rw [hsid]
      simp [alistLookup_update_self]
      rfl
    · unfold SharedMemory.saveActive
      rw [hsid]
      simp [alistLookup_update_self]
  · intro hd
    unfold SharedMemory.load_session
    rw [hd]

/-- C8: with an open session, `save(k, v)` then `get(k)` returns `v`'s
serialized form; `get(k, default)` returns the last-saved value or the
default and performs no store mutation; and `create_session` followed by
`load_session` of the same id in a fresh store instance over the same disk
yields an equal session mapping. -/
theorem C8_session_store_roundtrip (m : SharedMemory JValue) (k : String)
    (v : PyVal) (t : ℕ) (sid : String) (d w : JValue) (sid? : Option String)
    (t' : ℕ) :
    (m.session_id = some sid → k ≠ "updated_at" →
      ∀ m', m.savePy k v t = .ok m' → m'.get k d = v.dump) ∧
    (alistLookup m.memory k = none → m.get k d = d) ∧
    (alistLookup m.memory k = some w → m.get k d = w) ∧
    (let created := m.create_session sid? t'
     let fresh : SharedMemory JValue := { disk := created.2.disk }
     ∃ loaded, fresh.load_session created.1 = (true, loaded) ∧
       loaded.memory = created.2.memory ∧
       loaded.session_id = some created.1) := by
  refine ⟨?_, ?_, ?_, ?_⟩
  · intro hsid hk m' hm'
    unfold SharedMemory.savePy SharedMemory.save at hm'
    rw [hsid] at hm'
    injection hm' with hm'
    rw [← hm']
    exact saveActive_get_self _ sid _ _ _ _ hsid hk
  · intro h; unfold SharedMemory.get; rw [h]; rfl
  · intro h; unfold SharedMemory.get; rw [h]; rfl
  · refine ⟨_, ?_, rfl, rfl⟩
    show SharedMemory.load_session _ _ = _
    unfold SharedMemory.load_session SharedMemory.create_session
    simp [alistLookup_update_self]

/-- Witness for C7 at concrete inputs: a store with an open session accepts
a save and persists it; an empty store has no session file to load. -/
theorem C7_session_store_save_load_witness :
    (∃ m', ({ session_id := some "s1" } : SharedMemory JValue).savePy "k"
        (.json (.num 7)) 5 = .ok m' ∧
      m'.get "k" JValue.null = (PyVal.json (.num 7)).dump ∧
      m'.get "updated_at" JValue.null = .num 5 ∧
      alistLookup m'.disk "s1" = some m'.memory) ∧
    (({} : SharedMemory JValue).load_session "nope" = (false, {})) :=
  ⟨(C7_session_store_save_load { session_id := some "s1" } "k" (.json (.num 7))
      5 "s1").2.1 rfl (by decide),
   (C7_session_store_save_load {} "k" (.json (.num 7)) 5 "nope").2.2 rfl⟩

/-- Witness for C8 at concrete inputs. -/
theorem C8_session_store_roundtrip_witness :
    (∀ m', ({ session_id := some "s1" } : SharedMemory JValue).savePy "k"
        (.json (.str "hello")) 5 = .ok m' →
      m'.get "k" JValue.null = (PyVal.json (.str "hello")).dump) ∧
    (let created := ({} : SharedMemory JValue).create_session (some "s2") 9
     let fresh : SharedMemory JValue := { disk := created.2.disk }
     ∃ loaded, fresh.load_session created.1 = (true, loaded) ∧
       loaded.memory = created.2.memory ∧
       loaded.session_id = some created.1) :=
  ⟨(C8_session_store_roundtrip { session_id := some "s1" } "k"
      (.json (.str "hello")) 5 "s1" JValue.null JValue.null none 0).1
      rfl (by decide),
   (C8_session_store_roundtrip {} "k" (.json (.str "hello")) 5 "s1"
      JValue.null JValue.null (some "s2") 9).2.2.2⟩

/-! ## Claim C9: brand-profile extraction defaults
(`brand_strategist.py` 117-192) -/

/-- The `target_audience` sub-document of the boundary's JSON reply, with
every field possibly omitted (`TargetAudience(**result.get("target_audience", {}))`
applies the model's per-field defaults). -/
structure TargetAudienceDoc where
  demographics : Option (List (String × JValue)) := none
  psychographics : Option (List (String × JValue)) := none
  pain_points : Option (List String) := none
  goals : Option (List String) := none

/-- The parsed JSON document returned by the text boundary for brand-profile
extraction (`brand_strategist.py` 169), with every expected field possibly
omitted. -/
structure BrandDoc where
  brand_name : Option String := none
  industry : Option String := none
  tone_of_voice : Option (List String) := none
  value_proposition : Option String := none
  key_messages : Option (List String) := none
  target_audience : Option TargetAudienceDoc := none
  brand_keywords : Option (List String) := none
  competitors : Option (List String) := none

/-- The tone-parsing loop (`brand_strategist.py` 173-179): each label is
coerced via `ToneOfVoice(t)`; a `ValueError` (unrecognized label) is caught
and replaced by `PROFESSIONAL`. -/
def parseToneList : List String → List ToneOfVoice
  | [] => []
  | s :: rest =>
      match toneOfVoiceOfString s with
      | some tn => tn :: parseToneList rest
      | none => ToneOfVoice.professional :: parseToneList rest

/-- `TargetAudience(**doc)` with defaulted fields. -/
def targetAudienceOfDoc (d : TargetAudienceDoc) : TargetAudience :=
  { demographics := d.demographics.getD []
    psychographics := d.psychographics.getD []
    pain_points := d.pain_points.getD []
    goals := d.goals.getD [] }

/-- `BrandStrategistAgent._extract_brand_profile` (`brand_strategist.py`
169-192), from the parsed reply document to the `BrandProfile`: every
omitted field gets its named default (`"Unknown"` names, empty
string/list, `["professional"]` tone list), and each tone label goes
through the catching coercion. -/
def extractBrandProfile (doc : BrandDoc) : BrandProfile :=
  { brand_name := doc.brand_name.getD "Unknown"
    industry := doc.industry.getD "Unknown"
    tone_of_voice := parseToneList (doc.tone_of_voice.getD ["professional"])
    value_proposition := doc.value_proposition.getD ""
    key_messages := doc.key_messages.getD []
    target_audience := targetAudienceOfDoc (doc.target_audience.getD {})
    brand_keywords := doc.brand_keywords.getD []
    competitors := doc.competitors.getD [] }

theorem parseToneList_eq_map (l : List String) :
    parseToneList l =
      l.map fun s => (toneOfVoiceOfString s).getD ToneOfVoice.professional := by
  induction l with
  | nil => rfl
  | cons s rest ih =>
      cases h : toneOfVoiceOfString s <;>
        simp [parseToneList, h, ih]

/-- C9: brand-profile extraction is total over the parsed document; every
unrecognized tone label is silently mapped to `professional`, and every
omitted field is replaced by its named default (`"Unknown"` brand
name/industry, empty string/list, default tone list, empty audience). -/
theorem C9_brand_profile_defaults (doc : BrandDoc) :
    ((extractBrandProfile doc).tone_of_voice =
      (doc.tone_of_voice.getD ["professional"]).map
        (fun s => (toneOfVoiceOfString s).getD ToneOfVoice.professional)) ∧
    (∀ s, toneOfVoiceOfString s = none →
      (toneOfVoiceOfString s).getD ToneOfVoice.professional = .professional) ∧
    (doc.brand_name = none → (extractBrandProfile doc).brand_name = "Unknown") ∧
    (doc.industry = none → (extractBrandProfile doc).industry = "Unknown") ∧
    (doc.value_proposition = none →
      (extractBrandProfile doc).value_proposition = "") ∧
    (doc.key_messages = none → (extractBrandProfile doc).key_messages = []) ∧
    (doc.brand_keywords = none → (extractBrandProfile doc).brand_keywords = []) ∧
    (doc.competitors = none → (extractBrandProfile doc).competitors = []) ∧
    (doc.tone_of_voice = none →
      (extractBrandProfile doc).tone_of_voice = [.professional]) ∧
    (doc.target_audience = none →
      (extractBrandProfile doc).target_audience = ({} : TargetAudience)) := by
  refine ⟨parseToneList_eq_map _, fun s h => by rw [h]; rfl,
    fun h => ?_, fun h => ?_, fun h => ?_, fun h => ?_, fun h => ?_,
    fun h => ?_, fun h => ?_, fun h => ?_⟩ <;>
    simp [extractBrandProfile, targetAudienceOfDoc, parseToneList,
      toneOfVoiceOfString, h]

/-- Witness for C9 at a concrete input: the empty document (every field
omitted) and a document with an unrecognized tone label. -/
theorem C9_brand_profile_defaults_witness :
    ((extractBrandProfile {}).brand_name = "Unknown") ∧
    ((extractBrandProfile {}).tone_of_voice = [.professional]) ∧
    ((extractBrandProfile { tone_of_voice := some ["sassy", "friendly"] }).tone_of_voice =
      (["sassy", "friendly"].map
        (fun s => (toneOfVoiceOfString s).getD ToneOfVoice.professional))) :=
  ⟨(C9_brand_profile_defaults {}).2.2.1 rfl,
   (C9_brand_profile_defaults {}).2.2.2.2.2.2.2.2.1 rfl,
   (C9_brand_profile_defaults { tone_of_voice := some ["sassy", "friendly"] }).1⟩

/-! ## Claim C10: the twitter channel benchmark is missing
(`campaign_manager.py` 48-84, 147-203) -/

/-- One entry of `CampaignManagerAgent.channel_benchmarks`. -/
structure ChannelBenchmark where
  avg_cpm : ℚ
  avg_cpc : ℚ
  avg_ctr : ℚ
  avg_conversion_rate : ℚ
  reach_multiplier : ℕ
deriving Repr

/-- `CampaignManagerAgent.channel_benchmarks` (`campaign_manager.py`
48-84): a partial table over `Platform` — `twitter` has no entry, so a
lookup on it is a `KeyError`. -/
def channel_benchmarks : Platform → Option ChannelBenchmark
  | .linkedin => some ⟨15, 5, 25/1000, 2/100, 1000⟩
  | .google_ads => some ⟨10, 5/2, 3/100, 25/1000, 2000⟩
  | .facebook => some ⟨8, 3/2, 35/1000, 15/1000, 1500⟩
  | .instagram => some ⟨9, 9/5, 4/100, 18/1000, 1800⟩
  | .email => some ⟨5, 1/2, 5/100, 3/100, 500⟩
  | .twitter => none

/-- One step of the platform grouping loop of `_create_campaign_plan`
(`campaign_manager.py` 167-171): append the asset to its platform's group,
creating the group at the end on first sight. -/
def addAsset (groups : List (Platform × List ContentAsset)) (a : ContentAsset) :
    List (Platform × List ContentAsset) :=
  match groups with
  | [] => [(a.platform, [a])]
  | (p, xs) :: rest =>
      if p = a.platform then (p, xs ++ [a]) :: rest
      else (p, xs) :: addAsset rest a

/-- `platform_content` grouping of `_create_campaign_plan`. -/
def groupByPlatform (content_assets : List ContentAsset) :
    List (Platform × List ContentAsset) :=
  content_assets.foldl addAsset []

/-- The channel-strategy loop of `_create_campaign_plan`
(`campaign_manager.py` 174-191): for each platform group take the first
asset and look the platform up in `channel_benchmarks`; a missing asset is
an `IndexError`, a missing benchmark a `KeyError`, either raised at the
first offending group. -/
def buildChannelStrategies (brand_profile : BrandProfile) :
    List (Platform × List ContentAsset) → Except String (List ChannelStrategy)
  | [] => .ok []
  | (p, xs) :: rest =>
      match xs with
      | [] => .error "IndexError: list index out of range"
      | sel :: _ =>
          match channel_benchmarks p with
          | none => .error ("KeyError: " ++ p.val)
          | some bm =>
              (buildChannelStrategies brand_profile rest).map fun tail =>
                { channel := p, content_id := sel.content_id,
                  target_audience := brand_profile.target_audience,
                  budget_allocation :=
                    { channel := p, allocated_budget := 0, estimated_reach := 0,
                      estimated_cpm := bm.avg_cpm, estimated_cpc := bm.avg_cpc },
                  schedule := none } :: tail

/-- `CampaignManagerAgent._create_campaign_plan` (`campaign_manager.py`
147-203): group the assets by platform, build per-channel strategies
(benchmark lookups included), and assemble the plan; budget allocations are
filled in later. -/
def create_campaign_plan (content_assets : List ContentAsset)
    (brand_profile : BrandProfile) (total_budget : ℚ)
    (target_kpis : List (String × ℚ)) (cid : String) (t : ℕ) :
    Except String CampaignPlan :=
  (buildChannelStrategies brand_profile (groupByPlatform content_assets)).map
    fun strategies =>
      { campaign_id := cid,
        campaign_name := brand_profile.brand_name ++ " Campaign",
        total_budget := total_budget, budget_allocations := [],
        channel_strategies := strategies, target_kpis := target_kpis,
        start_date := some t }

theorem buildChannelStrategies_ok_benchmarks (bp : BrandProfile) :
    ∀ gs l, buildChannelStrategies bp gs = .ok l →
      ∀ g, g ∈ gs → (channel_benchmarks g.1).isSome = true := by
  intro gs
  induction gs with
  | nil => intro l _ g hg; cases hg
  | cons hd rest ih =>
      obtain ⟨p, xs⟩ := hd
      intro l hok g hg
      cases xs with
      | nil => cases hok
      | cons sel xs' =>
          cases hbm : channel_benchmarks p with
          | none => rw [buildChannelStrategies, hbm] at hok; cases hok
          | some bm =>
              rcases List.mem_cons.mp hg with hg' | hg'
              · rw [hg']
                show (channel_benchmarks p).isSome = true
                rw [hbm]; rfl
              · rw [buildChannelStrategies, hbm] at hok
                cases hrest : buildChannelStrategies bp rest with
                | error e => rw [hrest] at hok; cases hok
                | ok tail => exact ih tail hrest g hg'

theorem addAsset_map_fst (a : ContentAsset) :
    ∀ groups : List (Platform × List ContentAsset),
      (addAsset groups a).map Prod.fst =
        (if a.platform ∈ groups.map Prod.fst then groups.map Prod.fst
         else groups.map Prod.fst ++ [a.platform]) := by
  intro groups
  induction groups with
  | nil => simp [addAsset]
  | cons hd rest ih =>
      obtain ⟨q, xs⟩ := hd
      by_cases hq : q = a.platform
      · subst hq
        simp [addAsset]
      · by_cases hm : a.platform ∈ rest.map Prod.fst
        · simp [addAsset, hq, ih, hm, Ne.symm hq]
        · simp [addAsset, hq, ih, hm, Ne.symm hq]

theorem foldl_addAsset_mem :
    ∀ (content_assets : List ContentAsset)
      (groups : List (Platform × List ContentAsset)) (p : Platform),
      p ∈ groups.map Prod.fst →
      p ∈ (content_assets.foldl addAsset groups).map Prod.fst := by
  intro content_assets
  induction content_assets with
  | nil => intro groups p hp; exact hp
  | cons hd rest ih =>
      intro groups p hp
      refine ih (addAsset groups hd) p ?_
      rw [addAsset_map_fst]
      split
      · exact hp
      · exact List.mem_append_left _ hp

theorem foldl_addAsset_mem_asset :
    ∀ (content_assets : List ContentAsset)
      (groups : List (Platform × List ContentAsset)) (a : ContentAsset),
      a ∈ content_assets →
      a.platform ∈ (content_assets.foldl addAsset groups).map Prod.fst := by
  intro content_assets
  induction content_assets with
  | nil => intro groups a ha; cases ha
  | cons hd rest ih =>
      intro groups a ha
      rcases List.mem_cons.mp ha with heq | hmem
      · subst heq
        refine foldl_addAsset_mem rest (addAsset groups a) a.platform ?_
        rw [addAsset_map_fst]
        split
        · assumption
        · exact List.mem_append_right _ (by simp)
      · exact ih (addAsset groups hd) a hmem

theorem groupByPlatform_mem (content_assets : List ContentAsset)
    (a : ContentAsset) (ha : a ∈ content_assets) :
    a.platform ∈ (groupByPlatform content_assets).map Prod.fst :=
  foldl_addAsset_mem_asset content_assets [] a ha

/-- C10: `Platform.twitter` is an accepted platform but has no entry in the
campaign manager's benchmark table, so campaign execution on any asset list
containing a twitter asset fails with a key-lookup error inside
`_create_campaign_plan` before a plan is produced. -/
theorem C10_twitter_benchmark_missing (content_assets : List ContentAsset)
    (brand_profile : BrandProfile) (total_budget : ℚ)
    (target_kpis : List (String × ℚ)) (cid : String) (t : ℕ) :
    channel_benchmarks Platform.twitter = none ∧
    ((∃ a ∈ content_assets, a.platform = Platform.twitter) →
      ∃ msg, create_campaign_plan content_assets brand_profile total_budget
        target_kpis cid t = .error msg) := by
  refine ⟨rfl, ?_⟩
  rintro ⟨a, ha, hpl⟩
  cases hb : buildChannelStrategies brand_profile (groupByPlatform content_assets) with
  | error msg =>
      exact ⟨msg, by unfold create_campaign_plan; rw [hb]; rfl⟩
  | ok l =>
      exfalso
      have hmem := groupByPlatform_mem content_assets a ha
      rw [hpl] at hmem
      obtain ⟨g, hg, hgp⟩ := List.mem_map.mp hmem
      have hsome := buildChannelStrategies_ok_benchmarks brand_profile
        (groupByPlatform content_assets) l hb g hg
      rw [hgp] at hsome
      simp [channel_benchmarks] at hsome

/-- A concrete twitter content asset. -/
def demoTwitterAsset : ContentAsset :=
  { content_id := "a1", platform := .twitter, content_type := .post,
    content := "hi" }

/-- Witness for C10 at a concrete input: a single twitter asset makes plan
creation fail. -/
theorem C10_twitter_benchmark_missing_witness :
    channel_benchmarks Platform.twitter = none ∧
    ∃ msg, create_campaign_plan [demoTwitterAsset]
      (extractBrandProfile {}) 100 [("roi", 2)] "cid" 0 = .error msg :=
  ⟨(C10_twitter_benchmark_missing [demoTwitterAsset] (extractBrandProfile {})
      100 [("roi", 2)] "cid" 0).1,
   (C10_twitter_benchmark_missing [demoTwitterAsset] (extractBrandProfile {})
      100 [("roi", 2)] "cid" 0).2 ⟨demoTwitterAsset, by simp, rfl⟩⟩
